import Mathlib

/-!
# Verification of the BMP filter transforms

Shallow embedding of the image transforms of `src/filters.c` together with the
argument validation of `src/main.c`, and proofs relating them to the
natural-language specification.

Modelling conventions:
* A pixel (`RGBTRIPLE`, from `include/filters.h`) stores its three 8-bit
  channels as `Nat`; the range invariant `≤ 255` is proved, not assumed by the
  type.
* An image of size `h × w` is a total function `Fin h → Fin w → RGBTRIPLE`,
  mirroring the C 2-D array `RGBTRIPLE image[height][width]`.
* All array accesses of `blur` and `edges` go through the `Option`-valued
  accessor `getOpt`; an out-of-bounds access in the C code (undefined
  behaviour) shows up as `none`, which poisons the whole transform.
* The C code applies `round` (round-half-away-from-zero) to `sum / k.0` for a
  nonnegative integer `sum` and `k ∈ {3,4,6,9}`, and to `sqrt` of a sum of two
  integer squares.  For these inputs the double-precision computation is exact
  enough that the result is the integer nearest to the exact rational
  (half-integer quotients `s/4` and `s/6` are exactly representable and round
  up; `s/3`, `s/9` and `sqrt` of an integer are never exactly half-integral,
  and the floating-point error is orders of magnitude below the distance to
  the nearest half-integer).  The embedding therefore uses the exact integer
  roundings `roundDiv` and `roundSqrt` below.
-/

/-- Pixel structure from `include/filters.h`: three 8-bit channels in BGR
order, modelled with `Nat` channels. -/
structure RGBTRIPLE where
  rgbtBlue : Nat
  rgbtGreen : Nat
  rgbtRed : Nat
deriving DecidableEq

/-- The all-zero pixel: the content of a freshly `calloc`ed buffer cell. -/
def zeroPix : RGBTRIPLE := ⟨0, 0, 0⟩

/-- An `h × w` image, as the C 2-D array `RGBTRIPLE image[height][width]`. -/
def Image (h w : Nat) : Type := Fin h → Fin w → RGBTRIPLE

/-- A `Decidable` instance for quantification over `Fin n` that the kernel
can evaluate (the library instances in scope here reduce poorly under
`decide`); it checks the property along `List.finRange n`. -/
instance (priority := 2000) decForallFin {n : Nat} (P : Fin n → Prop)
    [DecidablePred P] : Decidable (∀ i, P i) :=
  decidable_of_iff ((List.finRange n).all fun i => decide (P i)) (by
    simp only [List.all_eq_true, List.mem_finRange, decide_eq_true_eq]
    exact ⟨fun hx i => hx i trivial, fun hx i _ => hx i⟩)

instance {h w : Nat} : DecidableEq (Image h w) := fun f g =>
  decidable_of_iff (∀ (i : Fin h) (j : Fin w), f i j = g i j)
    ⟨fun hx => funext fun i => funext fun j => hx i j, fun hx i j => by rw [hx]⟩

/-- `round(s / n.0)` for a nonnegative integer `s`, i.e. the nearest integer
to `s / n`, halves rounded up (= away from zero): `⌊s/n + 1/2⌋`. -/
def roundDiv (s n : Nat) : Nat := (2 * s + n) / (2 * n)

/-- Heron iteration for the integer square root, with structural fuel so
that the kernel can evaluate it on closed inputs (the iteration shrinks the
guess every step, so any `fuel ≥ guess` suffices). -/
def sqrtIter (fuel n guess : Nat) : Nat :=
  match fuel with
  | 0 => guess
  | fuel + 1 =>
    let next := (guess + n / guess) / 2
    if next < guess then sqrtIter fuel n next else guess

/-- The integer square root `⌊√n⌋` (the same Heron scheme as `Nat.sqrt`). -/
def isqrt (n : Nat) : Nat := if n ≤ 1 then n else sqrtIter n n (n / 2)

/-- `round(sqrt(m))` for a natural number `m`: the nearest integer to
`√m` (which is never exactly a half-integer). -/
def roundSqrt (m : Nat) : Nat :=
  let s := isqrt m
  if m ≤ s * s + s then s else s + 1

/-- One output channel of `edges`: `round(sqrt(gx² + gy²))` clamped to 255,
exactly the C expression `(round(sqrt(Gx + Gy)) > 255) ? 255 : round(...)`
with `Gx = a*a`, `Gy = d*d`. -/
def sobelVal (gx gy : Int) : Nat :=
  let v := roundSqrt (gx * gx + gy * gy).toNat
  if 255 < v then 255 else v

/-- Bounds-checked array access `image[i][j]` at (possibly negative) `Int`
indices; `none` models an out-of-bounds access (undefined behaviour in C). -/
def getOpt (h w : Nat) (g : Image h w) (i j : Int) : Option RGBTRIPLE :=
  if hb : 0 ≤ i ∧ i < (h : Int) ∧ 0 ≤ j ∧ j < (w : Int) then
    some (g ⟨i.toNat, by omega⟩ ⟨j.toNat, by omega⟩)
  else none

/-- `grayscale` from `src/filters.c` lines 14–27: every channel becomes
`round((Red + Green + Blue) / 3.0)`. -/
def grayscale (h w : Nat) (g : Image h w) : Image h w := fun i j =>
  let p := g i j
  let a := roundDiv (p.rgbtRed + p.rgbtGreen + p.rgbtBlue) 3
  ⟨a, a, a⟩

/-- The index `width - 1 - j` opposite `j` in a row. -/
def revIdx (w : Nat) (t : Fin w) : Fin w := ⟨w - 1 - t.val, by omega⟩

/-- Loop body of `reflect` (`src/filters.c` lines 44–46 / 53–55): swap row
elements `j` and `width - 1 - j` through the temporary buffer.  (The dead
`else` branch only keeps the function total; in `reflect` it is only called
with `j < w / 2 ≤ w`.) -/
def rowSwap (w : Nat) (r : Fin w → RGBTRIPLE) (j : Nat) : Fin w → RGBTRIPLE :=
  if hj : j < w then
    fun t =>
      if t.val = j then r ⟨w - 1 - j, by omega⟩
      else if t.val = w - 1 - j then r ⟨j, hj⟩
      else r t
  else r

/-- Inner loop of `reflect` over one row: `for (j = 0; j < width / 2; j++)`
swap `j` with `width - 1 - j`.  The C source branches on `width % 2` but runs
the identical loop in both branches; the branch is kept here verbatim. -/
def rowReflect (w : Nat) (r : Fin w → RGBTRIPLE) : Fin w → RGBTRIPLE :=
  if w % 2 = 0 then (List.range (w / 2)).foldl (rowSwap w) r
  else (List.range (w / 2)).foldl (rowSwap w) r

/-- `reflect` from `src/filters.c` lines 30–61.  The C outer loop runs the
row loop on each row independently, which is the per-row map below. -/
def reflect (h w : Nat) (g : Image h w) : Image h w := fun i => rowReflect w (g i)

/-- `reflect` including its allocation of the temporary buffer
(`src/filters.c` lines 32–36): the `calloc` outcome is the oracle `allocOk`;
on failure the process terminates with `exit(1)` before any pixel is touched
(`Except.error 1`, the grid argument left untouched), on success the swaps
run and the buffer is freed before returning. -/
def reflectProc (h w : Nat) (allocOk : Bool) (g : Image h w) :
    Except Nat (Image h w) :=
  if allocOk then Except.ok (reflect h w g) else Except.error 1

/-- Reading character `i` of a C string whose contents are `cs`: positions
`0 … cs.length - 1` hold the characters, position `cs.length` holds the NUL
terminator, and any position past that is an out-of-bounds read (`none`). -/
def cstrCharAt (cs : List Char) (i : Nat) : Option Char :=
  if hlt : i < cs.length then some cs[i]
  else if i = cs.length then some (Char.ofNat 0)
  else none

/-- `validate_args` from `src/main.c` lines 46–59, on the argument vector
(including the program name): returns the exit code `some 1` (`ERR_ARGS`) or
`some 0` (`SUCCESS`); `none` models the undefined behaviour of reading
`argv[1][1]` past the end of an empty argument string. -/
def validate_args (argv : List (List Char)) : Option Nat :=
  if argv.length ≠ 4 then some 1
  else
    match argv[1]? with
    | none => none
    | some fa =>
      match cstrCharAt fa 1 with
      | none => none
      | some flag =>
        if flag ≠ 'b' ∧ flag ≠ 'e' ∧ flag ≠ 'g' ∧ flag ≠ 'r' then some 1
        else some 0

/-! ## The shared border-case skeleton of `blur` and `edges`

`blur` (lines 68–250) and `edges` (lines 260–567) have the same control
structure: a `calloc`ed buffer `temp`, then for every `(i, j)` a chain of
*non-exclusive* `if`s over nine regions (top/middle/bottom row band ×
left/middle/right column band), each writing `temp[i][j]`, and finally a copy
of `temp` back over `image`.  The skeleton is factored out as `pixelPass`,
parameterised by the nine per-region combining functions; `blur` and `edges`
instantiate it.  A region whose body performs an out-of-bounds read yields
`none`, and — since in C the body would still have executed — a `none` from
any region whose guard holds poisons the final value (`seqStep`). -/

/-- Combiner type for a corner region of the pass (4 pixels read). -/
def K4 : Type := RGBTRIPLE → RGBTRIPLE → RGBTRIPLE → RGBTRIPLE → RGBTRIPLE

/-- Combiner type for an edge region of the pass (6 pixels read). -/
def K6 : Type := RGBTRIPLE → RGBTRIPLE → RGBTRIPLE → RGBTRIPLE → RGBTRIPLE →
  RGBTRIPLE → RGBTRIPLE

/-- Combiner type for the interior region of the pass (9 pixels read). -/
def K9 : Type := RGBTRIPLE → RGBTRIPLE → RGBTRIPLE → RGBTRIPLE → RGBTRIPLE →
  RGBTRIPLE → RGBTRIPLE → RGBTRIPLE → RGBTRIPLE → RGBTRIPLE

/-- Read four pixels, then combine them (body of a corner-region branch). -/
def reads4 (o1 o2 o3 o4 : Option RGBTRIPLE) (k : K4) : Option RGBTRIPLE := do
  let p1 ← o1
  let p2 ← o2
  let p3 ← o3
  let p4 ← o4
  pure (k p1 p2 p3 p4)

/-- Read six pixels, then combine them (body of an edge-region branch). -/
def reads6 (o1 o2 o3 o4 o5 o6 : Option RGBTRIPLE) (k : K6) : Option RGBTRIPLE := do
  let p1 ← o1
  let p2 ← o2
  let p3 ← o3
  let p4 ← o4
  let p5 ← o5
  let p6 ← o6
  pure (k p1 p2 p3 p4 p5 p6)

/-- Read nine pixels, then combine them (body of the interior branch). -/
def reads9 (o1 o2 o3 o4 o5 o6 o7 o8 o9 : Option RGBTRIPLE) (k : K9) :
    Option RGBTRIPLE := do
  let p1 ← o1
  let p2 ← o2
  let p3 ← o3
  let p4 ← o4
  let p5 ← o5
  let p6 ← o6
  let p7 ← o7
  let p8 ← o8
  let p9 ← o9
  pure (k p1 p2 p3 p4 p5 p6 p7 p8 p9)

/-- One region `if` of the chain: when the guard holds the body runs (and its
result overwrites `temp[i][j]`), but an earlier out-of-bounds read (`acc =
none`) has already made the whole computation undefined. -/
def seqStep (c : Prop) [Decidable c] (acc comp : Option RGBTRIPLE) :
    Option RGBTRIPLE :=
  if c then acc.bind fun _ => comp else acc

/-- The nine-region border-case chain computing `temp[i][j]`, common to
`blur` and `edges`; read positions and guard conditions transcribed from
`src/filters.c` (the two functions use identical guards and read the same
cells in the same order in every region). -/
def pixelPass (h w : Nat) (g : Image h w) (i j : Int)
    (kTL : K4) (kT : K6) (kTR : K4) (kL : K6) (kM : K9) (kR : K6)
    (kBL : K4) (kB : K6) (kBR : K4) : Option RGBTRIPLE :=
  let G := getOpt h w g
  let acc : Option RGBTRIPLE := some zeroPix
  let acc := seqStep (i = 0 ∧ j = 0) acc
    (reads4 (G i j) (G i (j+1)) (G (i+1) j) (G (i+1) (j+1)) kTL)
  let acc := seqStep (i = 0 ∧ 0 < j ∧ j < (w : Int) - 1) acc
    (reads6 (G i (j-1)) (G i j) (G i (j+1))
      (G (i+1) (j-1)) (G (i+1) j) (G (i+1) (j+1)) kT)
  let acc := seqStep (i = 0 ∧ j = (w : Int) - 1) acc
    (reads4 (G i (j-1)) (G i j) (G (i+1) (j-1)) (G (i+1) j) kTR)
  let acc := seqStep ((0 < i ∧ i < (h : Int) - 1) ∧ j = 0) acc
    (reads6 (G (i-1) j) (G (i-1) (j+1)) (G i j) (G i (j+1))
      (G (i+1) j) (G (i+1) (j+1)) kL)
  let acc := seqStep ((0 < i ∧ i < (h : Int) - 1) ∧ 0 < j ∧ j < (w : Int) - 1) acc
    (reads9 (G (i-1) (j-1)) (G (i-1) j) (G (i-1) (j+1))
      (G i (j-1)) (G i j) (G i (j+1))
      (G (i+1) (j-1)) (G (i+1) j) (G (i+1) (j+1)) kM)
  let acc := seqStep ((0 < i ∧ i < (h : Int) - 1) ∧ j = (w : Int) - 1) acc
    (reads6 (G (i-1) (j-1)) (G (i-1) j) (G i (j-1)) (G i j)
      (G (i+1) (j-1)) (G (i+1) j) kR)
  let acc := seqStep (i = (h : Int) - 1 ∧ j = 0) acc
    (reads4 (G (i-1) j) (G (i-1) (j+1)) (G i j) (G i (j+1)) kBL)
  let acc := seqStep (i = (h : Int) - 1 ∧ 0 < j ∧ j < (w : Int) - 1) acc
    (reads6 (G (i-1) (j-1)) (G (i-1) j) (G (i-1) (j+1))
      (G i (j-1)) (G i j) (G i (j+1)) kB)
  let acc := seqStep (i = (h : Int) - 1 ∧ j = (w : Int) - 1) acc
    (reads4 (G (i-1) (j-1)) (G (i-1) j) (G i (j-1)) (G i j) kBR)
  acc

/-! ## `blur` -/

/-- Corner combiner of `blur`: each channel is `round` of the mean of the
four read pixels (pixels given in the code's textual summation order). -/
def blur4 : K4 := fun p1 p2 p3 p4 =>
  ⟨roundDiv (p1.rgbtBlue + p2.rgbtBlue + p3.rgbtBlue + p4.rgbtBlue) 4,
   roundDiv (p1.rgbtGreen + p2.rgbtGreen + p3.rgbtGreen + p4.rgbtGreen) 4,
   roundDiv (p1.rgbtRed + p2.rgbtRed + p3.rgbtRed + p4.rgbtRed) 4⟩

/-- Edge combiner of `blur`: mean of the six read pixels. -/
def blur6 : K6 := fun p1 p2 p3 p4 p5 p6 =>
  ⟨roundDiv (p1.rgbtBlue + p2.rgbtBlue + p3.rgbtBlue + p4.rgbtBlue +
      p5.rgbtBlue + p6.rgbtBlue) 6,
   roundDiv (p1.rgbtGreen + p2.rgbtGreen + p3.rgbtGreen + p4.rgbtGreen +
      p5.rgbtGreen + p6.rgbtGreen) 6,
   roundDiv (p1.rgbtRed + p2.rgbtRed + p3.rgbtRed + p4.rgbtRed +
      p5.rgbtRed + p6.rgbtRed) 6⟩

/-- Interior combiner of `blur`: mean of the nine read pixels. -/
def blur9 : K9 := fun p1 p2 p3 p4 p5 p6 p7 p8 p9 =>
  ⟨roundDiv (p1.rgbtBlue + p2.rgbtBlue + p3.rgbtBlue + p4.rgbtBlue +
      p5.rgbtBlue + p6.rgbtBlue + p7.rgbtBlue + p8.rgbtBlue + p9.rgbtBlue) 9,
   roundDiv (p1.rgbtGreen + p2.rgbtGreen + p3.rgbtGreen + p4.rgbtGreen +
      p5.rgbtGreen + p6.rgbtGreen + p7.rgbtGreen + p8.rgbtGreen + p9.rgbtGreen) 9,
   roundDiv (p1.rgbtRed + p2.rgbtRed + p3.rgbtRed + p4.rgbtRed +
      p5.rgbtRed + p6.rgbtRed + p7.rgbtRed + p8.rgbtRed + p9.rgbtRed) 9⟩

/-- The value `blur` stores into `temp[i][j]` (`src/filters.c` lines 76–239). -/
def blurPixel (h w : Nat) (g : Image h w) (i j : Int) : Option RGBTRIPLE :=
  pixelPass h w g i j blur4 blur6 blur4 blur6 blur9 blur6 blur4 blur6 blur4

/-- `blur` from `src/filters.c` lines 68–250: fill `temp` from the original
image, then copy it back; `none` if any pixel's computation read out of
bounds. -/
def blurOpt (h w : Nat) (g : Image h w) : Option (Image h w) :=
  if H : ∀ (i : Fin h) (j : Fin w),
      (blurPixel h w g (i.val : Int) (j.val : Int)).isSome then
    some fun i j => (blurPixel h w g (i.val : Int) (j.val : Int)).get (H i j)
  else none

/-! ## `edges`

Per region, `edges` computes for each channel the two weighted sums `Gx`
(variables `a`/`b`/`c` in the source, for red/green/blue) and `Gy`
(`d`/`e`/`f`), squares and adds them, and stores
`round(sqrt(...))` clamped at 255.  The combiners below transcribe the
kernel weights of each region's block verbatim (including the `* 0` terms). -/

/-- `edges` region `i == 0 && j == 0` (lines 274–299); reads
`(i,j), (i,j+1), (i+1,j), (i+1,j+1)`. -/
def edgeTL : K4 := fun p1 p2 p3 p4 =>
  let a : Int := (p1.rgbtRed : Int) * 0 + (p2.rgbtRed : Int) * 2 +
    (p3.rgbtRed : Int) * 0 + (p4.rgbtRed : Int) * 1
  let b : Int := (p1.rgbtGreen : Int) * 0 + (p2.rgbtGreen : Int) * 2 +
    (p3.rgbtGreen : Int) * 0 + (p4.rgbtGreen : Int) * 1
  let c : Int := (p1.rgbtBlue : Int) * 0 + (p2.rgbtBlue : Int) * 2 +
    (p3.rgbtBlue : Int) * 0 + (p4.rgbtBlue : Int) * 1
  let d : Int := (p1.rgbtRed : Int) * 0 + (p2.rgbtRed : Int) * 0 +
    (p3.rgbtRed : Int) * 2 + (p4.rgbtRed : Int) * 1
  let e : Int := (p1.rgbtGreen : Int) * 0 + (p2.rgbtGreen : Int) * 0 +
    (p3.rgbtGreen : Int) * 2 + (p4.rgbtGreen : Int) * 1
  let f : Int := (p1.rgbtBlue : Int) * 0 + (p2.rgbtBlue : Int) * 0 +
    (p3.rgbtBlue : Int) * 2 + (p4.rgbtBlue : Int) * 1
  ⟨sobelVal c f, sobelVal b e, sobelVal a d⟩

/-- `edges` region `i == 0 && 0 < j < w-1` (lines 300–331); reads
`(i,j-1), (i,j), (i,j+1), (i+1,j-1), (i+1,j), (i+1,j+1)`. -/
def edgeT : K6 := fun p1 p2 p3 p4 p5 p6 =>
  let a : Int := (p1.rgbtRed : Int) * (-2) + (p2.rgbtRed : Int) * 0 +
    (p3.rgbtRed : Int) * 2 + (p4.rgbtRed : Int) * (-1) +
    (p5.rgbtRed : Int) * 0 + (p6.rgbtRed : Int) * 1
  let b : Int := (p1.rgbtGreen : Int) * (-2) + (p2.rgbtGreen : Int) * 0 +
    (p3.rgbtGreen : Int) * 2 + (p4.rgbtGreen : Int) * (-1) +
    (p5.rgbtGreen : Int) * 0 + (p6.rgbtGreen : Int) * 1
  let c : Int := (p1.rgbtBlue : Int) * (-2) + (p2.rgbtBlue : Int) * 0 +
    (p3.rgbtBlue : Int) * 2 + (p4.rgbtBlue : Int) * (-1) +
    (p5.rgbtBlue : Int) * 0 + (p6.rgbtBlue : Int) * 1
  let d : Int := (p1.rgbtRed : Int) * 0 + (p2.rgbtRed : Int) * 0 +
    (p3.rgbtRed : Int) * 0 + (p4.rgbtRed : Int) * 1 +
    (p5.rgbtRed : Int) * 2 + (p6.rgbtRed : Int) * 1
  let e : Int := (p1.rgbtGreen : Int) * 0 + (p2.rgbtGreen : Int) * 0 +
    (p3.rgbtGreen : Int) * 0 + (p4.rgbtGreen : Int) * 1 +
    (p5.rgbtGreen : Int) * 2 + (p6.rgbtGreen : Int) * 1
  let f : Int := (p1.rgbtBlue : Int) * 0 + (p2.rgbtBlue : Int) * 0 +
    (p3.rgbtBlue : Int) * 0 + (p4.rgbtBlue : Int) * 1 +
    (p5.rgbtBlue : Int) * 2 + (p6.rgbtBlue : Int) * 1
  ⟨sobelVal c f, sobelVal b e, sobelVal a d⟩

/-- `edges` region `i == 0 && j == w-1` (lines 332–359); reads
`(i,j-1), (i,j), (i+1,j-1), (i+1,j)`. -/
def edgeTR : K4 := fun p1 p2 p3 p4 =>
  let a : Int := (p1.rgbtRed : Int) * (-2) + (p2.rgbtRed : Int) * 0 +
    (p3.rgbtRed : Int) * (-1) + (p4.rgbtRed : Int) * 0
  let b : Int := (p1.rgbtGreen : Int) * (-2) + (p2.rgbtGreen : Int) * 0 +
    (p3.rgbtGreen : Int) * (-1) + (p4.rgbtGreen : Int) * 0
  let c : Int := (p1.rgbtBlue : Int) * (-2) + (p2.rgbtBlue : Int) * 0 +
    (p3.rgbtBlue : Int) * (-1) + (p4.rgbtBlue : Int) * 0
  let d : Int := (p1.rgbtRed : Int) * 0 + (p2.rgbtRed : Int) * 0 +
    (p3.rgbtRed : Int) * 1 + (p4.rgbtRed : Int) * 2
  let e : Int := (p1.rgbtGreen : Int) * 0 + (p2.rgbtGreen : Int) * 0 +
    (p3.rgbtGreen : Int) * 1 + (p4.rgbtGreen : Int) * 2
  let f : Int := (p1.rgbtBlue : Int) * 0 + (p2.rgbtBlue : Int) * 0 +
    (p3.rgbtBlue : Int) * 1 + (p4.rgbtBlue : Int) * 2
  ⟨sobelVal c f, sobelVal b e, sobelVal a d⟩

/-- `edges` region `0 < i < h-1 && j == 0` (lines 363–391); reads
`(i-1,j), (i-1,j+1), (i,j), (i,j+1), (i+1,j), (i+1,j+1)`. -/
def edgeL : K6 := fun p1 p2 p3 p4 p5 p6 =>
  let a : Int := (p1.rgbtRed : Int) * 0 + (p2.rgbtRed : Int) * 1 +
    (p3.rgbtRed : Int) * 0 + (p4.rgbtRed : Int) * 2 +
    (p5.rgbtRed : Int) * 0 + (p6.rgbtRed : Int) * 1
  let b : Int := (p1.rgbtGreen : Int) * 0 + (p2.rgbtGreen : Int) * 1 +
    (p3.rgbtGreen : Int) * 0 + (p4.rgbtGreen : Int) * 2 +
    (p5.rgbtGreen : Int) * 0 + (p6.rgbtGreen : Int) * 1
  let c : Int := (p1.rgbtBlue : Int) * 0 + (p2.rgbtBlue : Int) * 1 +
    (p3.rgbtBlue : Int) * 0 + (p4.rgbtBlue : Int) * 2 +
    (p5.rgbtBlue : Int) * 0 + (p6.rgbtBlue : Int) * 1
  let d : Int := (p1.rgbtRed : Int) * (-2) + (p2.rgbtRed : Int) * (-1) +
    (p3.rgbtRed : Int) * 0 + (p4.rgbtRed : Int) * 0 +
    (p5.rgbtRed : Int) * 2 + (p6.rgbtRed : Int) * 1
  let e : Int := (p1.rgbtGreen : Int) * (-2) + (p2.rgbtGreen : Int) * (-1) +
    (p3.rgbtGreen : Int) * 0 + (p4.rgbtGreen : Int) * 0 +
    (p5.rgbtGreen : Int) * 2 + (p6.rgbtGreen : Int) * 1
  let f : Int := (p1.rgbtBlue : Int) * (-2) + (p2.rgbtBlue : Int) * (-1) +
    (p3.rgbtBlue : Int) * 0 + (p4.rgbtBlue : Int) * 0 +
    (p5.rgbtBlue : Int) * 2 + (p6.rgbtBlue : Int) * 1
  ⟨sobelVal c f, sobelVal b e, sobelVal a d⟩

/-- `edges` interior region (lines 392–430); reads the full 3×3 block in
row-major order. -/
def edgeM : K9 := fun p1 p2 p3 p4 p5 p6 p7 p8 p9 =>
  let a : Int := (p1.rgbtRed : Int) * (-1) + (p2.rgbtRed : Int) * 0 +
    (p3.rgbtRed : Int) * 1 + (p4.rgbtRed : Int) * (-2) +
    (p5.rgbtRed : Int) * 0 + (p6.rgbtRed : Int) * 2 +
    (p7.rgbtRed : Int) * (-1) + (p8.rgbtRed : Int) * 0 + (p9.rgbtRed : Int) * 1
  let b : Int := (p1.rgbtGreen : Int) * (-1) + (p2.rgbtGreen : Int) * 0 +
    (p3.rgbtGreen : Int) * 1 + (p4.rgbtGreen : Int) * (-2) +
    (p5.rgbtGreen : Int) * 0 + (p6.rgbtGreen : Int) * 2 +
    (p7.rgbtGreen : Int) * (-1) + (p8.rgbtGreen : Int) * 0 +
    (p9.rgbtGreen : Int) * 1
  let c : Int := (p1.rgbtBlue : Int) * (-1) + (p2.rgbtBlue : Int) * 0 +
    (p3.rgbtBlue : Int) * 1 + (p4.rgbtBlue : Int) * (-2) +
    (p5.rgbtBlue : Int) * 0 + (p6.rgbtBlue : Int) * 2 +
    (p7.rgbtBlue : Int) * (-1) + (p8.rgbtBlue : Int) * 0 +
    (p9.rgbtBlue : Int) * 1
  let d : Int := (p1.rgbtRed : Int) * (-1) + (p2.rgbtRed : Int) * (-2) +
    (p3.rgbtRed : Int) * (-1) + (p4.rgbtRed : Int) * 0 +
    (p5.rgbtRed : Int) * 0 + (p6.rgbtRed : Int) * 0 +
    (p7.rgbtRed : Int) * 1 + (p8.rgbtRed : Int) * 2 + (p9.rgbtRed : Int) * 1
  let e : Int := (p1.rgbtGreen : Int) * (-1) + (p2.rgbtGreen : Int) * (-2) +
    (p3.rgbtGreen : Int) * (-1) + (p4.rgbtGreen : Int) * 0 +
    (p5.rgbtGreen : Int) * 0 + (p6.rgbtGreen : Int) * 0 +
    (p7.rgbtGreen : Int) * 1 + (p8.rgbtGreen : Int) * 2 +
    (p9.rgbtGreen : Int) * 1
  let f : Int := (p1.rgbtBlue : Int) * (-1) + (p2.rgbtBlue : Int) * (-2) +
    (p3.rgbtBlue : Int) * (-1) + (p4.rgbtBlue : Int) * 0 +
    (p5.rgbtBlue : Int) * 0 + (p6.rgbtBlue : Int) * 0 +
    (p7.rgbtBlue : Int) * 1 + (p8.rgbtBlue : Int) * 2 +
    (p9.rgbtBlue : Int) * 1
  ⟨sobelVal c f, sobelVal b e, sobelVal a d⟩

/-- `edges` region `0 < i < h-1 && j == w-1` (lines 431–461); reads
`(i-1,j-1), (i-1,j), (i,j-1), (i,j), (i+1,j-1), (i+1,j)`. -/
def edgeR : K6 := fun p1 p2 p3 p4 p5 p6 =>
  let a : Int := (p1.rgbtRed : Int) * (-1) + (p2.rgbtRed : Int) * 0 +
    (p3.rgbtRed : Int) * (-2) + (p4.rgbtRed : Int) * 0 +
    (p5.rgbtRed : Int) * (-1) + (p6.rgbtRed : Int) * 0
  let b : Int := (p1.rgbtGreen : Int) * (-1) + (p2.rgbtGreen : Int) * 0 +
    (p3.rgbtGreen : Int) * (-2) + (p4.rgbtGreen : Int) * 0 +
    (p5.rgbtGreen : Int) * (-1) + (p6.rgbtGreen : Int) * 0
  let c : Int := (p1.rgbtBlue : Int) * (-1) + (p2.rgbtBlue : Int) * 0 +
    (p3.rgbtBlue : Int) * (-2) + (p4.rgbtBlue : Int) * 0 +
    (p5.rgbtBlue : Int) * (-1) + (p6.rgbtBlue : Int) * 0
  let d : Int := (p1.rgbtRed : Int) * (-1) + (p2.rgbtRed : Int) * (-2) +
    (p3.rgbtRed : Int) * 0 + (p4.rgbtRed : Int) * 0 +
    (p5.rgbtRed : Int) * 1 + (p6.rgbtRed : Int) * 2
  let e : Int := (p1.rgbtGreen : Int) * (-1) + (p2.rgbtGreen : Int) * (-2) +
    (p3.rgbtGreen : Int) * 0 + (p4.rgbtGreen : Int) * 0 +
    (p5.rgbtGreen : Int) * 1 + (p6.rgbtGreen : Int) * 2
  let f : Int := (p1.rgbtBlue : Int) * (-1) + (p2.rgbtBlue : Int) * (-2) +
    (p3.rgbtBlue : Int) * 0 + (p4.rgbtBlue : Int) * 0 +
    (p5.rgbtBlue : Int) * 1 + (p6.rgbtBlue : Int) * 2
  ⟨sobelVal c f, sobelVal b e, sobelVal a d⟩

/-- `edges` region `i == h-1 && j == 0` (lines 465–493); reads
`(i-1,j), (i-1,j+1), (i,j), (i,j+1)`. -/
def edgeBL : K4 := fun p1 p2 p3 p4 =>
  let a : Int := (p1.rgbtRed : Int) * 0 + (p2.rgbtRed : Int) * 1 +
    (p3.rgbtRed : Int) * 0 + (p4.rgbtRed : Int) * 2
  let b : Int := (p1.rgbtGreen : Int) * 0 + (p2.rgbtGreen : Int) * 1 +
    (p3.rgbtGreen : Int) * 0 + (p4.rgbtGreen : Int) * 2
  let c : Int := (p1.rgbtBlue : Int) * 0 + (p2.rgbtBlue : Int) * 1 +
    (p3.rgbtBlue : Int) * 0 + (p4.rgbtBlue : Int) * 2
  let d : Int := (p1.rgbtRed : Int) * (-2) + (p2.rgbtRed : Int) * (-1) +
    (p3.rgbtRed : Int) * 0 + (p4.rgbtRed : Int) * 0
  let e : Int := (p1.rgbtGreen : Int) * (-2) + (p2.rgbtGreen : Int) * (-1) +
    (p3.rgbtGreen : Int) * 0 + (p4.rgbtGreen : Int) * 0
  let f : Int := (p1.rgbtBlue : Int) * (-2) + (p2.rgbtBlue : Int) * (-1) +
    (p3.rgbtBlue : Int) * 0 + (p4.rgbtBlue : Int) * 0
  ⟨sobelVal c f, sobelVal b e, sobelVal a d⟩

/-- `edges` region `i == h-1 && 0 < j < w-1` (lines 494–526); reads
`(i-1,j-1), (i-1,j), (i-1,j+1), (i,j-1), (i,j), (i,j+1)`. -/
def edgeB : K6 := fun p1 p2 p3 p4 p5 p6 =>
  let a : Int := (p1.rgbtRed : Int) * (-1) + (p2.rgbtRed : Int) * 0 +
    (p3.rgbtRed : Int) * 1 + (p4.rgbtRed : Int) * (-2) +
    (p5.rgbtRed : Int) * 0 + (p6.rgbtRed : Int) * 2
  let b : Int := (p1.rgbtGreen : Int) * (-1) + (p2.rgbtGreen : Int) * 0 +
    (p3.rgbtGreen : Int) * 1 + (p4.rgbtGreen : Int) * (-2) +
    (p5.rgbtGreen : Int) * 0 + (p6.rgbtGreen : Int) * 2
  let c : Int := (p1.rgbtBlue : Int) * (-1) + (p2.rgbtBlue : Int) * 0 +
    (p3.rgbtBlue : Int) * 1 + (p4.rgbtBlue : Int) * (-2) +
    (p5.rgbtBlue : Int) * 0 + (p6.rgbtBlue : Int) * 2
  let d : Int := (p1.rgbtRed : Int) * (-1) + (p2.rgbtRed : Int) * (-2) +
    (p3.rgbtRed : Int) * (-1) + (p4.rgbtRed : Int) * 0 +
    (p5.rgbtRed : Int) * 0 + (p6.rgbtRed : Int) * 0
  let e : Int := (p1.rgbtGreen : Int) * (-1) + (p2.rgbtGreen : Int) * (-2) +
    (p3.rgbtGreen : Int) * (-1) + (p4.rgbtGreen : Int) * 0 +
    (p5.rgbtGreen : Int) * 0 + (p6.rgbtGreen : Int) * 0
  let f : Int := (p1.rgbtBlue : Int) * (-1) + (p2.rgbtBlue : Int) * (-2) +
    (p3.rgbtBlue : Int) * (-1) + (p4.rgbtBlue : Int) * 0 +
    (p5.rgbtBlue : Int) * 0 + (p6.rgbtBlue : Int) * 0
  ⟨sobelVal c f, sobelVal b e, sobelVal a d⟩

/-- `edges` region `i == h-1 && j == w-1` (lines 527–555); reads
`(i-1,j-1), (i-1,j), (i,j-1), (i,j)`. -/
def edgeBR : K4 := fun p1 p2 p3 p4 =>
  let a : Int := (p1.rgbtRed : Int) * (-1) + (p2.rgbtRed : Int) * 0 +
    (p3.rgbtRed : Int) * (-2) + (p4.rgbtRed : Int) * 0
  let b : Int := (p1.rgbtGreen : Int) * (-1) + (p2.rgbtGreen : Int) * 0 +
    (p3.rgbtGreen : Int) * (-2) + (p4.rgbtGreen : Int) * 0
  let c : Int := (p1.rgbtBlue : Int) * (-1) + (p2.rgbtBlue : Int) * 0 +
    (p3.rgbtBlue : Int) * (-2) + (p4.rgbtBlue : Int) * 0
  let d : Int := (p1.rgbtRed : Int) * (-1) + (p2.rgbtRed : Int) * (-2) +
    (p3.rgbtRed : Int) * 0 + (p4.rgbtRed : Int) * 0
  let e : Int := (p1.rgbtGreen : Int) * (-1) + (p2.rgbtGreen : Int) * (-2) +
    (p3.rgbtGreen : Int) * 0 + (p4.rgbtGreen : Int) * 0
  let f : Int := (p1.rgbtBlue : Int) * (-1) + (p2.rgbtBlue : Int) * (-2) +
    (p3.rgbtBlue : Int) * 0 + (p4.rgbtBlue : Int) * 0
  ⟨sobelVal c f, sobelVal b e, sobelVal a d⟩

/-- The value `edges` stores into `temp[i][j]` (`src/filters.c` lines
268–558). -/
def edgesPixel (h w : Nat) (g : Image h w) (i j : Int) : Option RGBTRIPLE :=
  pixelPass h w g i j edgeTL edgeT edgeTR edgeL edgeM edgeR edgeBL edgeB edgeBR

/-- `edges` from `src/filters.c` lines 260–567: fill `temp` from the original
image, then copy it back; `none` if any pixel's computation read out of
bounds. -/
def edgesOpt (h w : Nat) (g : Image h w) : Option (Image h w) :=
  if H : ∀ (i : Fin h) (j : Fin w),
      (edgesPixel h w g (i.val : Int) (j.val : Int)).isSome then
    some fun i j => (edgesPixel h w g (i.val : Int) (j.val : Int)).get (H i j)
  else none

/-! ## Specification-side definitions

These follow the wording of the specification (and, for C1, its §4.4
pipeline), to be compared against the code embedding above. -/

/-- The 3×3 kernel offset set, row-major (spec §3). -/
def offs : List (Int × Int) :=
  [(-1,-1),(-1,0),(-1,1),(0,-1),(0,0),(0,1),(1,-1),(1,0),(1,1)]

/-- The in-bounds cells of the 3×3 neighbourhood centred at `(i,j)`
(spec §4.3: out-of-bounds neighbours are excluded). -/
def nbrs (h w : Nat) (g : Image h w) (i j : Int) : List RGBTRIPLE :=
  offs.filterMap fun d => getOpt h w g (i + d.1) (j + d.2)

/-- Spec §4.3 BoxBlur pixel: each channel is the rounded mean over the
in-bounds cells of the 3×3 neighbourhood, excluded cells dropped from both
sum and divisor. -/
def blurSpecPixel (h w : Nat) (g : Image h w) (i j : Int) : RGBTRIPLE :=
  let ns := nbrs h w g i j
  ⟨roundDiv (ns.map RGBTRIPLE.rgbtBlue).sum ns.length,
   roundDiv (ns.map RGBTRIPLE.rgbtGreen).sum ns.length,
   roundDiv (ns.map RGBTRIPLE.rgbtRed).sum ns.length⟩

/-- Spec §4.3 BoxBlur of a whole grid, computed from original values only. -/
def blurSpec (h w : Nat) (g : Image h w) : Image h w := fun i j =>
  blurSpecPixel h w g (i.val : Int) (j.val : Int)

/-- The Sobel `Gx` kernel as `(row offset, column offset, weight)` triples
(spec §4.4 stage 3). -/
def sobelGx : List (Int × Int × Int) :=
  [(-1,-1,-1),(-1,0,0),(-1,1,1),(0,-1,-2),(0,0,0),(0,1,2),(1,-1,-1),(1,0,0),(1,1,1)]

/-- The Sobel `Gy` kernel as `(row offset, column offset, weight)` triples. -/
def sobelGy : List (Int × Int × Int) :=
  [(-1,-1,-1),(-1,0,-2),(-1,1,-1),(0,-1,0),(0,0,0),(0,1,0),(1,-1,1),(1,0,2),(1,1,1)]

/-- A channel value with zero-padding: out-of-bounds cells contribute 0. -/
def padChan (h w : Nat) (g : Image h w) (f : RGBTRIPLE → Nat) (i j : Int) : Int :=
  match getOpt h w g i j with
  | some p => (f p : Int)
  | none => 0

/-- A Sobel gradient: kernel-weighted sum of the zero-padded channel `f`
over the 3×3 neighbourhood centred at `(i,j)`. -/
def gradSum (ker : List (Int × Int × Int)) (h w : Nat) (g : Image h w)
    (f : RGBTRIPLE → Nat) (i j : Int) : Int :=
  (ker.map fun t => t.2.2 * padChan h w g f (i + t.1) (j + t.2.1)).sum

/-- Per-channel Sobel gradient magnitude with zero-padding, clamped at 255 —
what `edges` actually computes at each pixel. -/
def edgesSpecPixel (h w : Nat) (g : Image h w) (i j : Int) : RGBTRIPLE :=
  ⟨sobelVal (gradSum sobelGx h w g RGBTRIPLE.rgbtBlue i j)
      (gradSum sobelGy h w g RGBTRIPLE.rgbtBlue i j),
   sobelVal (gradSum sobelGx h w g RGBTRIPLE.rgbtGreen i j)
      (gradSum sobelGy h w g RGBTRIPLE.rgbtGreen i j),
   sobelVal (gradSum sobelGx h w g RGBTRIPLE.rgbtRed i j)
      (gradSum sobelGy h w g RGBTRIPLE.rgbtRed i j)⟩

/-- Per-channel zero-padded clamped Sobel over the whole grid. -/
def edgesSpec (h w : Nat) (g : Image h w) : Image h w := fun i j =>
  edgesSpecPixel h w g (i.val : Int) (j.val : Int)

/-- Spec §4.4 stage 2 luminance `round(0.299 R + 0.587 G + 0.114 B)`,
computed exactly over the rationals. -/
def luminance (p : RGBTRIPLE) : Nat :=
  roundDiv (299 * p.rgbtRed + 587 * p.rgbtGreen + 114 * p.rgbtBlue) 1000

/-- Modelled from the spec: the four-stage EdgeDetect pipeline of §4.4
(grayscale collapse superseded by luminance; Sobel magnitude of the
luminance scalar field with zero-padding; threshold against the pixel's own
original luminance to white/black; one §4.3 BoxBlur pass).  The code's
`edges` implements no such pipeline; this definition exists only to compare
the spec's words against the code. -/
def edgesPipelineSpec (h w : Nat) (g : Image h w) : Image h w :=
  let lum : Image h w := fun i j =>
    let v := luminance (g i j); ⟨v, v, v⟩
  let mag : Fin h → Fin w → Nat := fun i j =>
    let gx := gradSum sobelGx h w lum RGBTRIPLE.rgbtRed (i.val : Int) (j.val : Int)
    let gy := gradSum sobelGy h w lum RGBTRIPLE.rgbtRed (i.val : Int) (j.val : Int)
    roundSqrt (gx * gx + gy * gy).toNat
  let bw : Image h w := fun i j =>
    if luminance (g i j) < mag i j then ⟨255, 255, 255⟩ else ⟨0, 0, 0⟩
  blurSpec h w bw

/-- All three channels of a pixel lie in the 8-bit range. -/
def boundedPix (p : RGBTRIPLE) : Prop :=
  p.rgbtBlue ≤ 255 ∧ p.rgbtGreen ≤ 255 ∧ p.rgbtRed ≤ 255

instance (p : RGBTRIPLE) : Decidable (boundedPix p) :=
  inferInstanceAs (Decidable (_ ∧ _ ∧ _))

/-- Every pixel of the grid is in range. -/
def boundedImg (h w : Nat) (g : Image h w) : Prop :=
  ∀ (i : Fin h) (j : Fin w), boundedPix (g i j)

instance (h w : Nat) (g : Image h w) : Decidable (boundedImg h w g) :=
  inferInstanceAs (Decidable (∀ (i : Fin h) (j : Fin w), boundedPix (g i j)))

/-! ## Concrete test images -/

/-- The 2×2 grid of spec §8's grayscale scenario: `(B,G,R)` values
`(10,20,30), (40,50,60), (70,80,90), (100,110,120)` in row-major order. -/
def img2x2 : Image 2 2 := fun i j =>
  if i.val = 0 then
    if j.val = 0 then ⟨10, 20, 30⟩ else ⟨40, 50, 60⟩
  else
    if j.val = 0 then ⟨70, 80, 90⟩ else ⟨100, 110, 120⟩

/-- A 1×1 grid. -/
def img1x1 : Image 1 1 := fun _ _ => ⟨10, 20, 30⟩

/-- A 1×2 grid. -/
def img1x2 : Image 1 2 := fun _ j =>
  if j.val = 0 then ⟨10, 20, 30⟩ else ⟨40, 50, 60⟩

/-- A 2×2 grid in which every pixel has the same (non-black) colour. -/
def imgUnif : Image 2 2 := fun _ _ => ⟨10, 10, 10⟩

/-- The all-black grid of a given size. -/
def imgBlack (h w : Nat) : Image h w := fun _ _ => zeroPix

/-- Expected grayscale of `img2x2` (spec §8: channels 20, 50, 80, 110). -/
def img2x2gray : Image 2 2 := fun i j =>
  if i.val = 0 then
    if j.val = 0 then ⟨20, 20, 20⟩ else ⟨50, 50, 50⟩
  else
    if j.val = 0 then ⟨80, 80, 80⟩ else ⟨110, 110, 110⟩

/-- The result of `blur` on `img2x2` (all four pixels average the same four
cells). -/
def img2x2blur : Image 2 2 := fun _ _ => ⟨55, 65, 75⟩

/-- The result of `edges` on `img2x2`. -/
def img2x2edges : Image 2 2 := fun i j =>
  if i.val = 0 then ⟨255, 255, 255⟩
  else
    if j.val = 0 then ⟨247, 255, 255⟩ else ⟨175, 216, 255⟩

/-- Total lookup used to state the evaluation lemmas: `g[x][y]` when in
bounds, the zero pixel otherwise. -/
def at2 (h w : Nat) (g : Image h w) (x y : Nat) : RGBTRIPLE :=
  if hx : x < h ∧ y < w then g ⟨x, hx.1⟩ ⟨y, hx.2⟩ else zeroPix

/-! ## Basic lemmas -/

theorem getOpt_eq_at2 {h w : Nat} (g : Image h w) (i j : Int) (x y : Nat)
    (hx : i = (x : Int)) (hy : j = (y : Int)) (hxh : x < h) (hyw : y < w) :
    getOpt h w g i j = some (at2 h w g x y) := by
  subst hx hy
  unfold getOpt at2
  rw [dif_pos (by omega), dif_pos ⟨hxh, hyw⟩]
  congr 2

theorem getOpt_oob {h w : Nat} (g : Image h w) (i j : Int)
    (hout : ¬(0 ≤ i ∧ i < (h : Int) ∧ 0 ≤ j ∧ j < (w : Int))) :
    getOpt h w g i j = none := dif_neg hout

theorem getOpt_some {h w : Nat} {g : Image h w} {i j : Int} {p : RGBTRIPLE}
    (hp : getOpt h w g i j = some p) : ∃ (a : Fin h) (b : Fin w), p = g a b := by
  unfold getOpt at hp
  split at hp
  · exact ⟨_, _, (Option.some.injEq _ _ ▸ hp).symm⟩
  · exact absurd hp (by simp)

theorem seqStep_skip {c : Prop} [Decidable c] {acc comp : Option RGBTRIPLE}
    (hc : ¬c) : seqStep c acc comp = acc := if_neg hc

theorem seqStep_take {c : Prop} [Decidable c] {x : RGBTRIPLE}
    {comp : Option RGBTRIPLE} (hc : c) : seqStep c (some x) comp = comp := by
  unfold seqStep
  rw [if_pos hc]
  rfl

theorem seqStep_eq_some {c : Prop} [Decidable c] {acc comp : Option RGBTRIPLE}
    {v : RGBTRIPLE} (hv : seqStep c acc comp = some v) :
    comp = some v ∨ acc = some v := by
  unfold seqStep at hv
  split at hv
  · cases acc with
    | none => exact absurd hv (by simp)
    | some x => exact Or.inl hv
  · exact Or.inr hv

theorem reads4_eq_some {o1 o2 o3 o4 : Option RGBTRIPLE} {k : K4} {v : RGBTRIPLE}
    (hv : reads4 o1 o2 o3 o4 k = some v) :
    ∃ p1 p2 p3 p4, o1 = some p1 ∧ o2 = some p2 ∧ o3 = some p3 ∧ o4 = some p4 ∧
      v = k p1 p2 p3 p4 := by
  simp only [reads4, bind, Option.bind_eq_some, pure, Option.some.injEq] at hv
  obtain ⟨p1, h1, p2, h2, p3, h3, p4, h4, hv⟩ := hv
  exact ⟨p1, p2, p3, p4, h1, h2, h3, h4, hv.symm⟩

theorem reads6_eq_some {o1 o2 o3 o4 o5 o6 : Option RGBTRIPLE} {k : K6}
    {v : RGBTRIPLE} (hv : reads6 o1 o2 o3 o4 o5 o6 k = some v) :
    ∃ p1 p2 p3 p4 p5 p6, o1 = some p1 ∧ o2 = some p2 ∧ o3 = some p3 ∧
      o4 = some p4 ∧ o5 = some p5 ∧ o6 = some p6 ∧ v = k p1 p2 p3 p4 p5 p6 := by
  simp only [reads6, bind, Option.bind_eq_some, pure, Option.some.injEq] at hv
  obtain ⟨p1, h1, p2, h2, p3, h3, p4, h4, p5, h5, p6, h6, hv⟩ := hv
  exact ⟨p1, p2, p3, p4, p5, p6, h1, h2, h3, h4, h5, h6, hv.symm⟩

theorem reads9_eq_some {o1 o2 o3 o4 o5 o6 o7 o8 o9 : Option RGBTRIPLE} {k : K9}
    {v : RGBTRIPLE} (hv : reads9 o1 o2 o3 o4 o5 o6 o7 o8 o9 k = some v) :
    ∃ p1 p2 p3 p4 p5 p6 p7 p8 p9, o1 = some p1 ∧ o2 = some p2 ∧ o3 = some p3 ∧
      o4 = some p4 ∧ o5 = some p5 ∧ o6 = some p6 ∧ o7 = some p7 ∧
      o8 = some p8 ∧ o9 = some p9 ∧ v = k p1 p2 p3 p4 p5 p6 p7 p8 p9 := by
  simp only [reads9, bind, Option.bind_eq_some, pure, Option.some.injEq] at hv
  obtain ⟨p1, h1, p2, h2, p3, h3, p4, h4, p5, h5, p6, h6, p7, h7, p8, h8, p9, h9, hv⟩ := hv
  exact ⟨p1, p2, p3, p4, p5, p6, p7, p8, p9, h1, h2, h3, h4, h5, h6, h7, h8, h9, hv.symm⟩

theorem roundDiv_congr {s1 s2 : Nat} (n : Nat) (hs : s1 = s2) :
    roundDiv s1 n = roundDiv s2 n := by rw [hs]

theorem sobelVal_congr {x y u v : Int} (hx : x = u) (hy : y = v) :
    sobelVal x y = sobelVal u v := by rw [hx, hy]

theorem roundDiv_le {s k M : Nat} (hs : s ≤ M * k) : roundDiv s k ≤ M := by
  unfold roundDiv
  rcases Nat.eq_zero_or_pos k with hk | hk
  · subst hk
    simp
  · apply Nat.lt_succ_iff.mp
    rw [Nat.div_lt_iff_lt_mul (by omega : 0 < 2 * k)]
    nlinarith

theorem sobelVal_le (gx gy : Int) : sobelVal gx gy ≤ 255 := by
  simp only [sobelVal]
  split <;> omega

/-! ## Evaluation of `pixelPass` in each of the nine regions (`h, w ≥ 2`) -/

theorem pixelPass_TL (h w : Nat) (g : Image h w)
    (kTL : K4) (kT : K6) (kTR : K4) (kL : K6) (kM : K9) (kR : K6)
    (kBL : K4) (kB : K6) (kBR : K4) (i : Fin h) (j : Fin w)
    (hh : 2 ≤ h) (hw : 2 ≤ w) (hi : i.val = 0) (hj : j.val = 0) :
    pixelPass h w g (i.val : Int) (j.val : Int) kTL kT kTR kL kM kR kBL kB kBR =
      some (kTL (at2 h w g i.val j.val) (at2 h w g i.val (j.val + 1))
        (at2 h w g (i.val + 1) j.val) (at2 h w g (i.val + 1) (j.val + 1))) := by
  have hiw := i.isLt
  have hjw := j.isLt
  have hc1 : ((i.val : Int) = 0 ∧ (j.val : Int) = 0) := by omega
  have hc2 : ¬((i.val : Int) = 0 ∧ 0 < (j.val : Int) ∧
      (j.val : Int) < (w : Int) - 1) := by omega
  have hc3 : ¬((i.val : Int) = 0 ∧ (j.val : Int) = (w : Int) - 1) := by omega
  have hc4 : ¬((0 < (i.val : Int) ∧ (i.val : Int) < (h : Int) - 1) ∧
      (j.val : Int) = 0) := by omega
  have hc5 : ¬((0 < (i.val : Int) ∧ (i.val : Int) < (h : Int) - 1) ∧
      0 < (j.val : Int) ∧ (j.val : Int) < (w : Int) - 1) := by omega
  have hc6 : ¬((0 < (i.val : Int) ∧ (i.val : Int) < (h : Int) - 1) ∧
      (j.val : Int) = (w : Int) - 1) := by omega
  have hc7 : ¬((i.val : Int) = (h : Int) - 1 ∧ (j.val : Int) = 0) := by omega
  have hc8 : ¬((i.val : Int) = (h : Int) - 1 ∧ 0 < (j.val : Int) ∧
      (j.val : Int) < (w : Int) - 1) := by omega
  have hc9 : ¬((i.val : Int) = (h : Int) - 1 ∧ (j.val : Int) = (w : Int) - 1) := by
    omega
  simp only [pixelPass]
  rw [seqStep_take hc1, seqStep_skip hc2, seqStep_skip hc3, seqStep_skip hc4,
      seqStep_skip hc5, seqStep_skip hc6, seqStep_skip hc7, seqStep_skip hc8,
      seqStep_skip hc9]
  rw [getOpt_eq_at2 g ((i.val : Int)) ((j.val : Int)) i.val j.val rfl rfl
        (by omega) (by omega),
      getOpt_eq_at2 g ((i.val : Int)) ((j.val : Int) + 1) i.val (j.val + 1) rfl
        (by omega) (by omega) (by omega),
      getOpt_eq_at2 g ((i.val : Int) + 1) ((j.val : Int)) (i.val + 1) j.val
        (by omega) rfl (by omega) (by omega),
      getOpt_eq_at2 g ((i.val : Int) + 1) ((j.val : Int) + 1) (i.val + 1) (j.val + 1)
        (by omega) (by omega) (by omega) (by omega)]
  rfl

theorem pixelPass_T (h w : Nat) (g : Image h w)
    (kTL : K4) (kT : K6) (kTR : K4) (kL : K6) (kM : K9) (kR : K6)
    (kBL : K4) (kB : K6) (kBR : K4) (i : Fin h) (j : Fin w)
    (hh : 2 ≤ h) (hw : 2 ≤ w) (hi : i.val = 0) (hj1 : 0 < j.val) (hj2 : j.val < w - 1) :
    pixelPass h w g (i.val : Int) (j.val : Int) kTL kT kTR kL kM kR kBL kB kBR =
      some (kT (at2 h w g i.val (j.val - 1)) (at2 h w g i.val j.val) (at2 h w g i.val (j.val + 1)) (at2 h w g (i.val + 1) (j.val - 1)) (at2 h w g (i.val + 1) j.val) (at2 h w g (i.val + 1) (j.val + 1))) := by
  have hiw := i.isLt
  have hjw := j.isLt
  have hc1 : ¬((i.val : Int) = 0 ∧ (j.val : Int) = 0) := by omega
  have hc2 : ((i.val : Int) = 0 ∧ 0 < (j.val : Int) ∧ (j.val : Int) < (w : Int) - 1) := by omega
  have hc3 : ¬((i.val : Int) = 0 ∧ (j.val : Int) = (w : Int) - 1) := by omega
  have hc4 : ¬((0 < (i.val : Int) ∧ (i.val : Int) < (h : Int) - 1) ∧ (j.val : Int) = 0) := by omega
  have hc5 : ¬((0 < (i.val : Int) ∧ (i.val : Int) < (h : Int) - 1) ∧ 0 < (j.val : Int) ∧ (j.val : Int) < (w : Int) - 1) := by omega
  have hc6 : ¬((0 < (i.val : Int) ∧ (i.val : Int) < (h : Int) - 1) ∧ (j.val : Int) = (w : Int) - 1) := by omega
  have hc7 : ¬((i.val : Int) = (h : Int) - 1 ∧ (j.val : Int) = 0) := by omega
  have hc8 : ¬((i.val : Int) = (h : Int) - 1 ∧ 0 < (j.val : Int) ∧ (j.val : Int) < (w : Int) - 1) := by omega
  have hc9 : ¬((i.val : Int) = (h : Int) - 1 ∧ (j.val : Int) = (w : Int) - 1) := by omega
  simp only [pixelPass]
  rw [seqStep_skip hc1, seqStep_take hc2, seqStep_skip hc3, seqStep_skip hc4, seqStep_skip hc5, seqStep_skip hc6, seqStep_skip hc7, seqStep_skip hc8, seqStep_skip hc9]
  rw [getOpt_eq_at2 g ((i.val : Int)) ((j.val : Int) - 1) i.val (j.val - 1) rfl (by omega) (by omega) (by omega),
      getOpt_eq_at2 g ((i.val : Int)) ((j.val : Int)) i.val j.val rfl rfl (by omega) (by omega),
      getOpt_eq_at2 g ((i.val : Int)) ((j.val : Int) + 1) i.val (j.val + 1) rfl (by omega) (by omega) (by omega),
      getOpt_eq_at2 g ((i.val : Int) + 1) ((j.val : Int) - 1) (i.val + 1) (j.val - 1) (by omega) (by omega) (by omega) (by omega),
      getOpt_eq_at2 g ((i.val : Int) + 1) ((j.val : Int)) (i.val + 1) j.val (by omega) rfl (by omega) (by omega),
      getOpt_eq_at2 g ((i.val : Int) + 1) ((j.val : Int) + 1) (i.val + 1) (j.val + 1) (by omega) (by omega) (by omega) (by omega)]
  rfl

theorem pixelPass_TR (h w : Nat) (g : Image h w)
    (kTL : K4) (kT : K6) (kTR : K4) (kL : K6) (kM : K9) (kR : K6)
    (kBL : K4) (kB : K6) (kBR : K4) (i : Fin h) (j : Fin w)
    (hh : 2 ≤ h) (hw : 2 ≤ w) (hi : i.val = 0) (hj : j.val = w - 1) :
    pixelPass h w g (i.val : Int) (j.val : Int) kTL kT kTR kL kM kR kBL kB kBR =
      some (kTR (at2 h w g i.val (j.val - 1)) (at2 h w g i.val j.val) (at2 h w g (i.val + 1) (j.val - 1)) (at2 h w g (i.val + 1) j.val)) := by
  have hiw := i.isLt
  have hjw := j.isLt
  have hc1 : ¬((i.val : Int) = 0 ∧ (j.val : Int) = 0) := by omega
  have hc2 : ¬((i.val : Int) = 0 ∧ 0 < (j.val : Int) ∧ (j.val : Int) < (w : Int) - 1) := by omega
  have hc3 : ((i.val : Int) = 0 ∧ (j.val : Int) = (w : Int) - 1) := by omega
  have hc4 : ¬((0 < (i.val : Int) ∧ (i.val : Int) < (h : Int) - 1) ∧ (j.val : Int) = 0) := by omega
  have hc5 : ¬((0 < (i.val : Int) ∧ (i.val : Int) < (h : Int) - 1) ∧ 0 < (j.val : Int) ∧ (j.val : Int) < (w : Int) - 1) := by omega
  have hc6 : ¬((0 < (i.val : Int) ∧ (i.val : Int) < (h : Int) - 1) ∧ (j.val : Int) = (w : Int) - 1) := by omega
  have hc7 : ¬((i.val : Int) = (h : Int) - 1 ∧ (j.val : Int) = 0) := by omega
  have hc8 : ¬((i.val : Int) = (h : Int) - 1 ∧ 0 < (j.val : Int) ∧ (j.val : Int) < (w : Int) - 1) := by omega
  have hc9 : ¬((i.val : Int) = (h : Int) - 1 ∧ (j.val : Int) = (w : Int) - 1) := by omega
  simp only [pixelPass]
  rw [seqStep_skip hc1, seqStep_skip hc2, seqStep_take hc3, seqStep_skip hc4, seqStep_skip hc5, seqStep_skip hc6, seqStep_skip hc7, seqStep_skip hc8, seqStep_skip hc9]
  rw [getOpt_eq_at2 g ((i.val : Int)) ((j.val : Int) - 1) i.val (j.val - 1) rfl (by omega) (by omega) (by omega),
      getOpt_eq_at2 g ((i.val : Int)) ((j.val : Int)) i.val j.val rfl rfl (by omega) (by omega),
      getOpt_eq_at2 g ((i.val : Int) + 1) ((j.val : Int) - 1) (i.val + 1) (j.val - 1) (by omega) (by omega) (by omega) (by omega),
      getOpt_eq_at2 g ((i.val : Int) + 1) ((j.val : Int)) (i.val + 1) j.val (by omega) rfl (by omega) (by omega)]
  rfl

theorem pixelPass_L (h w : Nat) (g : Image h w)
    (kTL : K4) (kT : K6) (kTR : K4) (kL : K6) (kM : K9) (kR : K6)
    (kBL : K4) (kB : K6) (kBR : K4) (i : Fin h) (j : Fin w)
    (hh : 2 ≤ h) (hw : 2 ≤ w) (hi1 : 0 < i.val) (hi2 : i.val < h - 1) (hj : j.val = 0) :
    pixelPass h w g (i.val : Int) (j.val : Int) kTL kT kTR kL kM kR kBL kB kBR =
      some (kL (at2 h w g (i.val - 1) j.val) (at2 h w g (i.val - 1) (j.val + 1)) (at2 h w g i.val j.val) (at2 h w g i.val (j.val + 1)) (at2 h w g (i.val + 1) j.val) (at2 h w g (i.val + 1) (j.val + 1))) := by
  have hiw := i.isLt
  have hjw := j.isLt
  have hc1 : ¬((i.val : Int) = 0 ∧ (j.val : Int) = 0) := by omega
  have hc2 : ¬((i.val : Int) = 0 ∧ 0 < (j.val : Int) ∧ (j.val : Int) < (w : Int) - 1) := by omega
  have hc3 : ¬((i.val : Int) = 0 ∧ (j.val : Int) = (w : Int) - 1) := by omega
  have hc4 : ((0 < (i.val : Int) ∧ (i.val : Int) < (h : Int) - 1) ∧ (j.val : Int) = 0) := by omega
  have hc5 : ¬((0 < (i.val : Int) ∧ (i.val : Int) < (h : Int) - 1) ∧ 0 < (j.val : Int) ∧ (j.val : Int) < (w : Int) - 1) := by omega
  have hc6 : ¬((0 < (i.val : Int) ∧ (i.val : Int) < (h : Int) - 1) ∧ (j.val : Int) = (w : Int) - 1) := by omega
  have hc7 : ¬((i.val : Int) = (h : Int) - 1 ∧ (j.val : Int) = 0) := by omega
  have hc8 : ¬((i.val : Int) = (h : Int) - 1 ∧ 0 < (j.val : Int) ∧ (j.val : Int) < (w : Int) - 1) := by omega
  have hc9 : ¬((i.val : Int) = (h : Int) - 1 ∧ (j.val : Int) = (w : Int) - 1) := by omega
  simp only [pixelPass]
  rw [seqStep_skip hc1, seqStep_skip hc2, seqStep_skip hc3, seqStep_take hc4, seqStep_skip hc5, seqStep_skip hc6, seqStep_skip hc7, seqStep_skip hc8, seqStep_skip hc9]
  rw [getOpt_eq_at2 g ((i.val : Int) - 1) ((j.val : Int)) (i.val - 1) j.val (by omega) rfl (by omega) (by omega),
      getOpt_eq_at2 g ((i.val : Int) - 1) ((j.val : Int) + 1) (i.val - 1) (j.val + 1) (by omega) (by omega) (by omega) (by omega),
      getOpt_eq_at2 g ((i.val : Int)) ((j.val : Int)) i.val j.val rfl rfl (by omega) (by omega),
      getOpt_eq_at2 g ((i.val : Int)) ((j.val : Int) + 1) i.val (j.val + 1) rfl (by omega) (by omega) (by omega),
      getOpt_eq_at2 g ((i.val : Int) + 1) ((j.val : Int)) (i.val + 1) j.val (by omega) rfl (by omega) (by omega),
      getOpt_eq_at2 g ((i.val : Int) + 1) ((j.val : Int) + 1) (i.val + 1) (j.val + 1) (by omega) (by omega) (by omega) (by omega)]
  rfl

theorem pixelPass_M (h w : Nat) (g : Image h w)
    (kTL : K4) (kT : K6) (kTR : K4) (kL : K6) (kM : K9) (kR : K6)
    (kBL : K4) (kB : K6) (kBR : K4) (i : Fin h) (j : Fin w)
    (hh : 2 ≤ h) (hw : 2 ≤ w) (hi1 : 0 < i.val) (hi2 : i.val < h - 1) (hj1 : 0 < j.val) (hj2 : j.val < w - 1) :
    pixelPass h w g (i.val : Int) (j.val : Int) kTL kT kTR kL kM kR kBL kB kBR =
      some (kM (at2 h w g (i.val - 1) (j.val - 1)) (at2 h w g (i.val - 1) j.val) (at2 h w g (i.val - 1) (j.val + 1)) (at2 h w g i.val (j.val - 1)) (at2 h w g i.val j.val) (at2 h w g i.val (j.val + 1)) (at2 h w g (i.val + 1) (j.val - 1)) (at2 h w g (i.val + 1) j.val) (at2 h w g (i.val + 1) (j.val + 1))) := by
  have hiw := i.isLt
  have hjw := j.isLt
  have hc1 : ¬((i.val : Int) = 0 ∧ (j.val : Int) = 0) := by omega
  have hc2 : ¬((i.val : Int) = 0 ∧ 0 < (j.val : Int) ∧ (j.val : Int) < (w : Int) - 1) := by omega
  have hc3 : ¬((i.val : Int) = 0 ∧ (j.val : Int) = (w : Int) - 1) := by omega
  have hc4 : ¬((0 < (i.val : Int) ∧ (i.val : Int) < (h : Int) - 1) ∧ (j.val : Int) = 0) := by omega
  have hc5 : ((0 < (i.val : Int) ∧ (i.val : Int) < (h : Int) - 1) ∧ 0 < (j.val : Int) ∧ (j.val : Int) < (w : Int) - 1) := by omega
  have hc6 : ¬((0 < (i.val : Int) ∧ (i.val : Int) < (h : Int) - 1) ∧ (j.val : Int) = (w : Int) - 1) := by omega
  have hc7 : ¬((i.val : Int) = (h : Int) - 1 ∧ (j.val : Int) = 0) := by omega
  have hc8 : ¬((i.val : Int) = (h : Int) - 1 ∧ 0 < (j.val : Int) ∧ (j.val : Int) < (w : Int) - 1) := by omega
  have hc9 : ¬((i.val : Int) = (h : Int) - 1 ∧ (j.val : Int) = (w : Int) - 1) := by omega
  simp only [pixelPass]
  rw [seqStep_skip hc1, seqStep_skip hc2, seqStep_skip hc3, seqStep_skip hc4, seqStep_take hc5, seqStep_skip hc6, seqStep_skip hc7, seqStep_skip hc8, seqStep_skip hc9]
  rw [getOpt_eq_at2 g ((i.val : Int) - 1) ((j.val : Int) - 1) (i.val - 1) (j.val - 1) (by omega) (by omega) (by omega) (by omega),
      getOpt_eq_at2 g ((i.val : Int) - 1) ((j.val : Int)) (i.val - 1) j.val (by omega) rfl (by omega) (by omega),
      getOpt_eq_at2 g ((i.val : Int) - 1) ((j.val : Int) + 1) (i.val - 1) (j.val + 1) (by omega) (by omega) (by omega) (by omega),
      getOpt_eq_at2 g ((i.val : Int)) ((j.val : Int) - 1) i.val (j.val - 1) rfl (by omega) (by omega) (by omega),
      getOpt_eq_at2 g ((i.val : Int)) ((j.val : Int)) i.val j.val rfl rfl (by omega) (by omega),
      getOpt_eq_at2 g ((i.val : Int)) ((j.val : Int) + 1) i.val (j.val + 1) rfl (by omega) (by omega) (by omega),
      getOpt_eq_at2 g ((i.val : Int) + 1) ((j.val : Int) - 1) (i.val + 1) (j.val - 1) (by omega) (by omega) (by omega) (by omega),
      getOpt_eq_at2 g ((i.val : Int) + 1) ((j.val : Int)) (i.val + 1) j.val (by omega) rfl (by omega) (by omega),
      getOpt_eq_at2 g ((i.val : Int) + 1) ((j.val : Int) + 1) (i.val + 1) (j.val + 1) (by omega) (by omega) (by omega) (by omega)]
  rfl

theorem pixelPass_R (h w : Nat) (g : Image h w)
    (kTL : K4) (kT : K6) (kTR : K4) (kL : K6) (kM : K9) (kR : K6)
    (kBL : K4) (kB : K6) (kBR : K4) (i : Fin h) (j : Fin w)
    (hh : 2 ≤ h) (hw : 2 ≤ w) (hi1 : 0 < i.val) (hi2 : i.val < h - 1) (hj : j.val = w - 1) :
    pixelPass h w g (i.val : Int) (j.val : Int) kTL kT kTR kL kM kR kBL kB kBR =
      some (kR (at2 h w g (i.val - 1) (j.val - 1)) (at2 h w g (i.val - 1) j.val) (at2 h w g i.val (j.val - 1)) (at2 h w g i.val j.val) (at2 h w g (i.val + 1) (j.val - 1)) (at2 h w g (i.val + 1) j.val)) := by
  have hiw := i.isLt
  have hjw := j.isLt
  have hc1 : ¬((i.val : Int) = 0 ∧ (j.val : Int) = 0) := by omega
  have hc2 : ¬((i.val : Int) = 0 ∧ 0 < (j.val : Int) ∧ (j.val : Int) < (w : Int) - 1) := by omega
  have hc3 : ¬((i.val : Int) = 0 ∧ (j.val : Int) = (w : Int) - 1) := by omega
  have hc4 : ¬((0 < (i.val : Int) ∧ (i.val : Int) < (h : Int) - 1) ∧ (j.val : Int) = 0) := by omega
  have hc5 : ¬((0 < (i.val : Int) ∧ (i.val : Int) < (h : Int) - 1) ∧ 0 < (j.val : Int) ∧ (j.val : Int) < (w : Int) - 1) := by omega
  have hc6 : ((0 < (i.val : Int) ∧ (i.val : Int) < (h : Int) - 1) ∧ (j.val : Int) = (w : Int) - 1) := by omega
  have hc7 : ¬((i.val : Int) = (h : Int) - 1 ∧ (j.val : Int) = 0) := by omega
  have hc8 : ¬((i.val : Int) = (h : Int) - 1 ∧ 0 < (j.val : Int) ∧ (j.val : Int) < (w : Int) - 1) := by omega
  have hc9 : ¬((i.val : Int) = (h : Int) - 1 ∧ (j.val : Int) = (w : Int) - 1) := by omega
  simp only [pixelPass]
  rw [seqStep_skip hc1, seqStep_skip hc2, seqStep_skip hc3, seqStep_skip hc4, seqStep_skip hc5, seqStep_take hc6, seqStep_skip hc7, seqStep_skip hc8, seqStep_skip hc9]
  rw [getOpt_eq_at2 g ((i.val : Int) - 1) ((j.val : Int) - 1) (i.val - 1) (j.val - 1) (by omega) (by omega) (by omega) (by omega),
      getOpt_eq_at2 g ((i.val : Int) - 1) ((j.val : Int)) (i.val - 1) j.val (by omega) rfl (by omega) (by omega),
      getOpt_eq_at2 g ((i.val : Int)) ((j.val : Int) - 1) i.val (j.val - 1) rfl (by omega) (by omega) (by omega),
      getOpt_eq_at2 g ((i.val : Int)) ((j.val : Int)) i.val j.val rfl rfl (by omega) (by omega),
      getOpt_eq_at2 g ((i.val : Int) + 1) ((j.val : Int) - 1) (i.val + 1) (j.val - 1) (by omega) (by omega) (by omega) (by omega),
      getOpt_eq_at2 g ((i.val : Int) + 1) ((j.val : Int)) (i.val + 1) j.val (by omega) rfl (by omega) (by omega)]
  rfl

theorem pixelPass_BL (h w : Nat) (g : Image h w)
    (kTL : K4) (kT : K6) (kTR : K4) (kL : K6) (kM : K9) (kR : K6)
    (kBL : K4) (kB : K6) (kBR : K4) (i : Fin h) (j : Fin w)
    (hh : 2 ≤ h) (hw : 2 ≤ w) (hi : i.val = h - 1) (hj : j.val = 0) :
    pixelPass h w g (i.val : Int) (j.val : Int) kTL kT kTR kL kM kR kBL kB kBR =
      some (kBL (at2 h w g (i.val - 1) j.val) (at2 h w g (i.val - 1) (j.val + 1)) (at2 h w g i.val j.val) (at2 h w g i.val (j.val + 1))) := by
  have hiw := i.isLt
  have hjw := j.isLt
  have hc1 : ¬((i.val : Int) = 0 ∧ (j.val : Int) = 0) := by omega
  have hc2 : ¬((i.val : Int) = 0 ∧ 0 < (j.val : Int) ∧ (j.val : Int) < (w : Int) - 1) := by omega
  have hc3 : ¬((i.val : Int) = 0 ∧ (j.val : Int) = (w : Int) - 1) := by omega
  have hc4 : ¬((0 < (i.val : Int) ∧ (i.val : Int) < (h : Int) - 1) ∧ (j.val : Int) = 0) := by omega
  have hc5 : ¬((0 < (i.val : Int) ∧ (i.val : Int) < (h : Int) - 1) ∧ 0 < (j.val : Int) ∧ (j.val : Int) < (w : Int) - 1) := by omega
  have hc6 : ¬((0 < (i.val : Int) ∧ (i.val : Int) < (h : Int) - 1) ∧ (j.val : Int) = (w : Int) - 1) := by omega
  have hc7 : ((i.val : Int) = (h : Int) - 1 ∧ (j.val : Int) = 0) := by omega
  have hc8 : ¬((i.val : Int) = (h : Int) - 1 ∧ 0 < (j.val : Int) ∧ (j.val : Int) < (w : Int) - 1) := by omega
  have hc9 : ¬((i.val : Int) = (h : Int) - 1 ∧ (j.val : Int) = (w : Int) - 1) := by omega
  simp only [pixelPass]
  rw [seqStep_skip hc1, seqStep_skip hc2, seqStep_skip hc3, seqStep_skip hc4, seqStep_skip hc5, seqStep_skip hc6, seqStep_take hc7, seqStep_skip hc8, seqStep_skip hc9]
  rw [getOpt_eq_at2 g ((i.val : Int) - 1) ((j.val : Int)) (i.val - 1) j.val (by omega) rfl (by omega) (by omega),
      getOpt_eq_at2 g ((i.val : Int) - 1) ((j.val : Int) + 1) (i.val - 1) (j.val + 1) (by omega) (by omega) (by omega) (by omega),
      getOpt_eq_at2 g ((i.val : Int)) ((j.val : Int)) i.val j.val rfl rfl (by omega) (by omega),
      getOpt_eq_at2 g ((i.val : Int)) ((j.val : Int) + 1) i.val (j.val + 1) rfl (by omega) (by omega) (by omega)]
  rfl

theorem pixelPass_B (h w : Nat) (g : Image h w)
    (kTL : K4) (kT : K6) (kTR : K4) (kL : K6) (kM : K9) (kR : K6)
    (kBL : K4) (kB : K6) (kBR : K4) (i : Fin h) (j : Fin w)
    (hh : 2 ≤ h) (hw : 2 ≤ w) (hi : i.val = h - 1) (hj1 : 0 < j.val) (hj2 : j.val < w - 1) :
    pixelPass h w g (i.val : Int) (j.val : Int) kTL kT kTR kL kM kR kBL kB kBR =
      some (kB (at2 h w g (i.val - 1) (j.val - 1)) (at2 h w g (i.val - 1) j.val) (at2 h w g (i.val - 1) (j.val + 1)) (at2 h w g i.val (j.val - 1)) (at2 h w g i.val j.val) (at2 h w g i.val (j.val + 1))) := by
  have hiw := i.isLt
  have hjw := j.isLt
  have hc1 : ¬((i.val : Int) = 0 ∧ (j.val : Int) = 0) := by omega
  have hc2 : ¬((i.val : Int) = 0 ∧ 0 < (j.val : Int) ∧ (j.val : Int) < (w : Int) - 1) := by omega
  have hc3 : ¬((i.val : Int) = 0 ∧ (j.val : Int) = (w : Int) - 1) := by omega
  have hc4 : ¬((0 < (i.val : Int) ∧ (i.val : Int) < (h : Int) - 1) ∧ (j.val : Int) = 0) := by omega
  have hc5 : ¬((0 < (i.val : Int) ∧ (i.val : Int) < (h : Int) - 1) ∧ 0 < (j.val : Int) ∧ (j.val : Int) < (w : Int) - 1) := by omega
  have hc6 : ¬((0 < (i.val : Int) ∧ (i.val : Int) < (h : Int) - 1) ∧ (j.val : Int) = (w : Int) - 1) := by omega
  have hc7 : ¬((i.val : Int) = (h : Int) - 1 ∧ (j.val : Int) = 0) := by omega
  have hc8 : ((i.val : Int) = (h : Int) - 1 ∧ 0 < (j.val : Int) ∧ (j.val : Int) < (w : Int) - 1) := by omega
  have hc9 : ¬((i.val : Int) = (h : Int) - 1 ∧ (j.val : Int) = (w : Int) - 1) := by omega
  simp only [pixelPass]
  rw [seqStep_skip hc1, seqStep_skip hc2, seqStep_skip hc3, seqStep_skip hc4, seqStep_skip hc5, seqStep_skip hc6, seqStep_skip hc7, seqStep_take hc8, seqStep_skip hc9]
  rw [getOpt_eq_at2 g ((i.val : Int) - 1) ((j.val : Int) - 1) (i.val - 1) (j.val - 1) (by omega) (by omega) (by omega) (by omega),
      getOpt_eq_at2 g ((i.val : Int) - 1) ((j.val : Int)) (i.val - 1) j.val (by omega) rfl (by omega) (by omega),
      getOpt_eq_at2 g ((i.val : Int) - 1) ((j.val : Int) + 1) (i.val - 1) (j.val + 1) (by omega) (by omega) (by omega) (by omega),
      getOpt_eq_at2 g ((i.val : Int)) ((j.val : Int) - 1) i.val (j.val - 1) rfl (by omega) (by omega) (by omega),
      getOpt_eq_at2 g ((i.val : Int)) ((j.val : Int)) i.val j.val rfl rfl (by omega) (by omega),
      getOpt_eq_at2 g ((i.val : Int)) ((j.val : Int) + 1) i.val (j.val + 1) rfl (by omega) (by omega) (by omega)]
  rfl

theorem pixelPass_BR (h w : Nat) (g : Image h w)
    (kTL : K4) (kT : K6) (kTR : K4) (kL : K6) (kM : K9) (kR : K6)
    (kBL : K4) (kB : K6) (kBR : K4) (i : Fin h) (j : Fin w)
    (hh : 2 ≤ h) (hw : 2 ≤ w) (hi : i.val = h - 1) (hj : j.val = w - 1) :
    pixelPass h w g (i.val : Int) (j.val : Int) kTL kT kTR kL kM kR kBL kB kBR =
      some (kBR (at2 h w g (i.val - 1) (j.val - 1)) (at2 h w g (i.val - 1) j.val) (at2 h w g i.val (j.val - 1)) (at2 h w g i.val j.val)) := by
  have hiw := i.isLt
  have hjw := j.isLt
  have hc1 : ¬((i.val : Int) = 0 ∧ (j.val : Int) = 0) := by omega
  have hc2 : ¬((i.val : Int) = 0 ∧ 0 < (j.val : Int) ∧ (j.val : Int) < (w : Int) - 1) := by omega
  have hc3 : ¬((i.val : Int) = 0 ∧ (j.val : Int) = (w : Int) - 1) := by omega
  have hc4 : ¬((0 < (i.val : Int) ∧ (i.val : Int) < (h : Int) - 1) ∧ (j.val : Int) = 0) := by omega
  have hc5 : ¬((0 < (i.val : Int) ∧ (i.val : Int) < (h : Int) - 1) ∧ 0 < (j.val : Int) ∧ (j.val : Int) < (w : Int) - 1) := by omega
  have hc6 : ¬((0 < (i.val : Int) ∧ (i.val : Int) < (h : Int) - 1) ∧ (j.val : Int) = (w : Int) - 1) := by omega
  have hc7 : ¬((i.val : Int) = (h : Int) - 1 ∧ (j.val : Int) = 0) := by omega
  have hc8 : ¬((i.val : Int) = (h : Int) - 1 ∧ 0 < (j.val : Int) ∧ (j.val : Int) < (w : Int) - 1) := by omega
  have hc9 : ((i.val : Int) = (h : Int) - 1 ∧ (j.val : Int) = (w : Int) - 1) := by omega
  simp only [pixelPass]
  rw [seqStep_skip hc1, seqStep_skip hc2, seqStep_skip hc3, seqStep_skip hc4, seqStep_skip hc5, seqStep_skip hc6, seqStep_skip hc7, seqStep_skip hc8, seqStep_take hc9]
  rw [getOpt_eq_at2 g ((i.val : Int) - 1) ((j.val : Int) - 1) (i.val - 1) (j.val - 1) (by omega) (by omega) (by omega) (by omega),
      getOpt_eq_at2 g ((i.val : Int) - 1) ((j.val : Int)) (i.val - 1) j.val (by omega) rfl (by omega) (by omega),
      getOpt_eq_at2 g ((i.val : Int)) ((j.val : Int) - 1) i.val (j.val - 1) rfl (by omega) (by omega) (by omega),
      getOpt_eq_at2 g ((i.val : Int)) ((j.val : Int)) i.val j.val rfl rfl (by omega) (by omega)]
  rfl

/-! ## Evaluation of `blurSpecPixel` in each region -/

theorem blurSpecPixel_TL (h w : Nat) (g : Image h w) (i : Fin h) (j : Fin w)
    (hh : 2 ≤ h) (hw : 2 ≤ w) (hi : i.val = 0) (hj : j.val = 0) :
    blurSpecPixel h w g (i.val : Int) (j.val : Int) =
      blur4 (at2 h w g i.val j.val) (at2 h w g i.val (j.val + 1))
        (at2 h w g (i.val + 1) j.val) (at2 h w g (i.val + 1) (j.val + 1)) := by
  have hiw := i.isLt
  have hjw := j.isLt
  have e1 : getOpt h w g ((i.val : Int) + (-1)) ((j.val : Int) + (-1)) = none :=
    getOpt_oob g _ _ (by omega)
  have e2 : getOpt h w g ((i.val : Int) + (-1)) ((j.val : Int) + 0) = none :=
    getOpt_oob g _ _ (by omega)
  have e3 : getOpt h w g ((i.val : Int) + (-1)) ((j.val : Int) + 1) = none :=
    getOpt_oob g _ _ (by omega)
  have e4 : getOpt h w g ((i.val : Int) + 0) ((j.val : Int) + (-1)) = none :=
    getOpt_oob g _ _ (by omega)
  have e5 : getOpt h w g ((i.val : Int) + 0) ((j.val : Int) + 0) =
      some (at2 h w g i.val j.val) :=
    getOpt_eq_at2 g _ _ i.val j.val (by omega) (by omega) (by omega) (by omega)
  have e6 : getOpt h w g ((i.val : Int) + 0) ((j.val : Int) + 1) =
      some (at2 h w g i.val (j.val + 1)) :=
    getOpt_eq_at2 g _ _ i.val (j.val + 1) (by omega) (by omega) (by omega) (by omega)
  have e7 : getOpt h w g ((i.val : Int) + 1) ((j.val : Int) + (-1)) = none :=
    getOpt_oob g _ _ (by omega)
  have e8 : getOpt h w g ((i.val : Int) + 1) ((j.val : Int) + 0) =
      some (at2 h w g (i.val + 1) j.val) :=
    getOpt_eq_at2 g _ _ (i.val + 1) j.val (by omega) (by omega) (by omega) (by omega)
  have e9 : getOpt h w g ((i.val : Int) + 1) ((j.val : Int) + 1) =
      some (at2 h w g (i.val + 1) (j.val + 1)) :=
    getOpt_eq_at2 g _ _ (i.val + 1) (j.val + 1) (by omega) (by omega) (by omega)
      (by omega)
  simp only [blurSpecPixel, nbrs, offs, List.filterMap_cons, List.filterMap_nil,
    e1, e2, e3, e4, e5, e6, e7, e8, e9, List.map_cons, List.map_nil,
    List.sum_cons, List.sum_nil, List.length_cons, List.length_nil, blur4,
    RGBTRIPLE.mk.injEq]
  refine ⟨roundDiv_congr _ (by omega), roundDiv_congr _ (by omega),
    roundDiv_congr _ (by omega)⟩

theorem blurSpecPixel_T (h w : Nat) (g : Image h w) (i : Fin h) (j : Fin w)
    (hh : 2 ≤ h) (hw : 2 ≤ w) (hi : i.val = 0) (hj1 : 0 < j.val) (hj2 : j.val < w - 1) :
    blurSpecPixel h w g (i.val : Int) (j.val : Int) =
      blur6 (at2 h w g i.val (j.val - 1)) (at2 h w g i.val j.val) (at2 h w g i.val (j.val + 1)) (at2 h w g (i.val + 1) (j.val - 1)) (at2 h w g (i.val + 1) j.val) (at2 h w g (i.val + 1) (j.val + 1)) := by
  have hiw := i.isLt
  have hjw := j.isLt
  have e1 : getOpt h w g ((i.val : Int) + (-1)) ((j.val : Int) + (-1)) = none :=
    getOpt_oob g _ _ (by omega)
  have e2 : getOpt h w g ((i.val : Int) + (-1)) ((j.val : Int) + 0) = none :=
    getOpt_oob g _ _ (by omega)
  have e3 : getOpt h w g ((i.val : Int) + (-1)) ((j.val : Int) + 1) = none :=
    getOpt_oob g _ _ (by omega)
  have e4 : getOpt h w g ((i.val : Int) + 0) ((j.val : Int) + (-1)) =
      some (at2 h w g i.val (j.val - 1)) :=
    getOpt_eq_at2 g _ _ i.val (j.val - 1) (by omega) (by omega) (by omega) (by omega)
  have e5 : getOpt h w g ((i.val : Int) + 0) ((j.val : Int) + 0) =
      some (at2 h w g i.val j.val) :=
    getOpt_eq_at2 g _ _ i.val j.val (by omega) (by omega) (by omega) (by omega)
  have e6 : getOpt h w g ((i.val : Int) + 0) ((j.val : Int) + 1) =
      some (at2 h w g i.val (j.val + 1)) :=
    getOpt_eq_at2 g _ _ i.val (j.val + 1) (by omega) (by omega) (by omega) (by omega)
  have e7 : getOpt h w g ((i.val : Int) + 1) ((j.val : Int) + (-1)) =
      some (at2 h w g (i.val + 1) (j.val - 1)) :=
    getOpt_eq_at2 g _ _ (i.val + 1) (j.val - 1) (by omega) (by omega) (by omega) (by omega)
  have e8 : getOpt h w g ((i.val : Int) + 1) ((j.val : Int) + 0) =
      some (at2 h w g (i.val + 1) j.val) :=
    getOpt_eq_at2 g _ _ (i.val + 1) j.val (by omega) (by omega) (by omega) (by omega)
  have e9 : getOpt h w g ((i.val : Int) + 1) ((j.val : Int) + 1) =
      some (at2 h w g (i.val + 1) (j.val + 1)) :=
    getOpt_eq_at2 g _ _ (i.val + 1) (j.val + 1) (by omega) (by omega) (by omega) (by omega)
  simp only [blurSpecPixel, nbrs, offs, List.filterMap_cons, List.filterMap_nil,
    e1, e2, e3, e4, e5, e6, e7, e8, e9, List.map_cons, List.map_nil,
    List.sum_cons, List.sum_nil, List.length_cons, List.length_nil, blur6,
    RGBTRIPLE.mk.injEq]
  refine ⟨roundDiv_congr _ (by omega), roundDiv_congr _ (by omega),
    roundDiv_congr _ (by omega)⟩

theorem blurSpecPixel_TR (h w : Nat) (g : Image h w) (i : Fin h) (j : Fin w)
    (hh : 2 ≤ h) (hw : 2 ≤ w) (hi : i.val = 0) (hj : j.val = w - 1) :
    blurSpecPixel h w g (i.val : Int) (j.val : Int) =
      blur4 (at2 h w g i.val (j.val - 1)) (at2 h w g i.val j.val) (at2 h w g (i.val + 1) (j.val - 1)) (at2 h w g (i.val + 1) j.val) := by
  have hiw := i.isLt
  have hjw := j.isLt
  have e1 : getOpt h w g ((i.val : Int) + (-1)) ((j.val : Int) + (-1)) = none :=
    getOpt_oob g _ _ (by omega)
  have e2 : getOpt h w g ((i.val : Int) + (-1)) ((j.val : Int) + 0) = none :=
    getOpt_oob g _ _ (by omega)
  have e3 : getOpt h w g ((i.val : Int) + (-1)) ((j.val : Int) + 1) = none :=
    getOpt_oob g _ _ (by omega)
  have e4 : getOpt h w g ((i.val : Int) + 0) ((j.val : Int) + (-1)) =
      some (at2 h w g i.val (j.val - 1)) :=
    getOpt_eq_at2 g _ _ i.val (j.val - 1) (by omega) (by omega) (by omega) (by omega)
  have e5 : getOpt h w g ((i.val : Int) + 0) ((j.val : Int) + 0) =
      some (at2 h w g i.val j.val) :=
    getOpt_eq_at2 g _ _ i.val j.val (by omega) (by omega) (by omega) (by omega)
  have e6 : getOpt h w g ((i.val : Int) + 0) ((j.val : Int) + 1) = none :=
    getOpt_oob g _ _ (by omega)
  have e7 : getOpt h w g ((i.val : Int) + 1) ((j.val : Int) + (-1)) =
      some (at2 h w g (i.val + 1) (j.val - 1)) :=
    getOpt_eq_at2 g _ _ (i.val + 1) (j.val - 1) (by omega) (by omega) (by omega) (by omega)
  have e8 : getOpt h w g ((i.val : Int) + 1) ((j.val : Int) + 0) =
      some (at2 h w g (i.val + 1) j.val) :=
    getOpt_eq_at2 g _ _ (i.val + 1) j.val (by omega) (by omega) (by omega) (by omega)
  have e9 : getOpt h w g ((i.val : Int) + 1) ((j.val : Int) + 1) = none :=
    getOpt_oob g _ _ (by omega)
  simp only [blurSpecPixel, nbrs, offs, List.filterMap_cons, List.filterMap_nil,
    e1, e2, e3, e4, e5, e6, e7, e8, e9, List.map_cons, List.map_nil,
    List.sum_cons, List.sum_nil, List.length_cons, List.length_nil, blur4,
    RGBTRIPLE.mk.injEq]
  refine ⟨roundDiv_congr _ (by omega), roundDiv_congr _ (by omega),
    roundDiv_congr _ (by omega)⟩

theorem blurSpecPixel_L (h w : Nat) (g : Image h w) (i : Fin h) (j : Fin w)
    (hh : 2 ≤ h) (hw : 2 ≤ w) (hi1 : 0 < i.val) (hi2 : i.val < h - 1) (hj : j.val = 0) :
    blurSpecPixel h w g (i.val : Int) (j.val : Int) =
      blur6 (at2 h w g (i.val - 1) j.val) (at2 h w g (i.val - 1) (j.val + 1)) (at2 h w g i.val j.val) (at2 h w g i.val (j.val + 1)) (at2 h w g (i.val + 1) j.val) (at2 h w g (i.val + 1) (j.val + 1)) := by
  have hiw := i.isLt
  have hjw := j.isLt
  have e1 : getOpt h w g ((i.val : Int) + (-1)) ((j.val : Int) + (-1)) = none :=
    getOpt_oob g _ _ (by omega)
  have e2 : getOpt h w g ((i.val : Int) + (-1)) ((j.val : Int) + 0) =
      some (at2 h w g (i.val - 1) j.val) :=
    getOpt_eq_at2 g _ _ (i.val - 1) j.val (by omega) (by omega) (by omega) (by omega)
  have e3 : getOpt h w g ((i.val : Int) + (-1)) ((j.val : Int) + 1) =
      some (at2 h w g (i.val - 1) (j.val + 1)) :=
    getOpt_eq_at2 g _ _ (i.val - 1) (j.val + 1) (by omega) (by omega) (by omega) (by omega)
  have e4 : getOpt h w g ((i.val : Int) + 0) ((j.val : Int) + (-1)) = none :=
    getOpt_oob g _ _ (by omega)
  have e5 : getOpt h w g ((i.val : Int) + 0) ((j.val : Int) + 0) =
      some (at2 h w g i.val j.val) :=
    getOpt_eq_at2 g _ _ i.val j.val (by omega) (by omega) (by omega) (by omega)
  have e6 : getOpt h w g ((i.val : Int) + 0) ((j.val : Int) + 1) =
      some (at2 h w g i.val (j.val + 1)) :=
    getOpt_eq_at2 g _ _ i.val (j.val + 1) (by omega) (by omega) (by omega) (by omega)
  have e7 : getOpt h w g ((i.val : Int) + 1) ((j.val : Int) + (-1)) = none :=
    getOpt_oob g _ _ (by omega)
  have e8 : getOpt h w g ((i.val : Int) + 1) ((j.val : Int) + 0) =
      some (at2 h w g (i.val + 1) j.val) :=
    getOpt_eq_at2 g _ _ (i.val + 1) j.val (by omega) (by omega) (by omega) (by omega)
  have e9 : getOpt h w g ((i.val : Int) + 1) ((j.val : Int) + 1) =
      some (at2 h w g (i.val + 1) (j.val + 1)) :=
    getOpt_eq_at2 g _ _ (i.val + 1) (j.val + 1) (by omega) (by omega) (by omega) (by omega)
  simp only [blurSpecPixel, nbrs, offs, List.filterMap_cons, List.filterMap_nil,
    e1, e2, e3, e4, e5, e6, e7, e8, e9, List.map_cons, List.map_nil,
    List.sum_cons, List.sum_nil, List.length_cons, List.length_nil, blur6,
    RGBTRIPLE.mk.injEq]
  refine ⟨roundDiv_congr _ (by omega), roundDiv_congr _ (by omega),
    roundDiv_congr _ (by omega)⟩

theorem blurSpecPixel_M (h w : Nat) (g : Image h w) (i : Fin h) (j : Fin w)
    (hh : 2 ≤ h) (hw : 2 ≤ w) (hi1 : 0 < i.val) (hi2 : i.val < h - 1) (hj1 : 0 < j.val) (hj2 : j.val < w - 1) :
    blurSpecPixel h w g (i.val : Int) (j.val : Int) =
      blur9 (at2 h w g (i.val - 1) (j.val - 1)) (at2 h w g (i.val - 1) j.val) (at2 h w g (i.val - 1) (j.val + 1)) (at2 h w g i.val (j.val - 1)) (at2 h w g i.val j.val) (at2 h w g i.val (j.val + 1)) (at2 h w g (i.val + 1) (j.val - 1)) (at2 h w g (i.val + 1) j.val) (at2 h w g (i.val + 1) (j.val + 1)) := by
  have hiw := i.isLt
  have hjw := j.isLt
  have e1 : getOpt h w g ((i.val : Int) + (-1)) ((j.val : Int) + (-1)) =
      some (at2 h w g (i.val - 1) (j.val - 1)) :=
    getOpt_eq_at2 g _ _ (i.val - 1) (j.val - 1) (by omega) (by omega) (by omega) (by omega)
  have e2 : getOpt h w g ((i.val : Int) + (-1)) ((j.val : Int) + 0) =
      some (at2 h w g (i.val - 1) j.val) :=
    getOpt_eq_at2 g _ _ (i.val - 1) j.val (by omega) (by omega) (by omega) (by omega)
  have e3 : getOpt h w g ((i.val : Int) + (-1)) ((j.val : Int) + 1) =
      some (at2 h w g (i.val - 1) (j.val + 1)) :=
    getOpt_eq_at2 g _ _ (i.val - 1) (j.val + 1) (by omega) (by omega) (by omega) (by omega)
  have e4 : getOpt h w g ((i.val : Int) + 0) ((j.val : Int) + (-1)) =
      some (at2 h w g i.val (j.val - 1)) :=
    getOpt_eq_at2 g _ _ i.val (j.val - 1) (by omega) (by omega) (by omega) (by omega)
  have e5 : getOpt h w g ((i.val : Int) + 0) ((j.val : Int) + 0) =
      some (at2 h w g i.val j.val) :=
    getOpt_eq_at2 g _ _ i.val j.val (by omega) (by omega) (by omega) (by omega)
  have e6 : getOpt h w g ((i.val : Int) + 0) ((j.val : Int) + 1) =
      some (at2 h w g i.val (j.val + 1)) :=
    getOpt_eq_at2 g _ _ i.val (j.val + 1) (by omega) (by omega) (by omega) (by omega)
  have e7 : getOpt h w g ((i.val : Int) + 1) ((j.val : Int) + (-1)) =
      some (at2 h w g (i.val + 1) (j.val - 1)) :=
    getOpt_eq_at2 g _ _ (i.val + 1) (j.val - 1) (by omega) (by omega) (by omega) (by omega)
  have e8 : getOpt h w g ((i.val : Int) + 1) ((j.val : Int) + 0) =
      some (at2 h w g (i.val + 1) j.val) :=
    getOpt_eq_at2 g _ _ (i.val + 1) j.val (by omega) (by omega) (by omega) (by omega)
  have e9 : getOpt h w g ((i.val : Int) + 1) ((j.val : Int) + 1) =
      some (at2 h w g (i.val + 1) (j.val + 1)) :=
    getOpt_eq_at2 g _ _ (i.val + 1) (j.val + 1) (by omega) (by omega) (by omega) (by omega)
  simp only [blurSpecPixel, nbrs, offs, List.filterMap_cons, List.filterMap_nil,
    e1, e2, e3, e4, e5, e6, e7, e8, e9, List.map_cons, List.map_nil,
    List.sum_cons, List.sum_nil, List.length_cons, List.length_nil, blur9,
    RGBTRIPLE.mk.injEq]
  refine ⟨roundDiv_congr _ (by omega), roundDiv_congr _ (by omega),
    roundDiv_congr _ (by omega)⟩

theorem blurSpecPixel_R (h w : Nat) (g : Image h w) (i : Fin h) (j : Fin w)
    (hh : 2 ≤ h) (hw : 2 ≤ w) (hi1 : 0 < i.val) (hi2 : i.val < h - 1) (hj : j.val = w - 1) :
    blurSpecPixel h w g (i.val : Int) (j.val : Int) =
      blur6 (at2 h w g (i.val - 1) (j.val - 1)) (at2 h w g (i.val - 1) j.val) (at2 h w g i.val (j.val - 1)) (at2 h w g i.val j.val) (at2 h w g (i.val + 1) (j.val - 1)) (at2 h w g (i.val + 1) j.val) := by
  have hiw := i.isLt
  have hjw := j.isLt
  have e1 : getOpt h w g ((i.val : Int) + (-1)) ((j.val : Int) + (-1)) =
      some (at2 h w g (i.val - 1) (j.val - 1)) :=
    getOpt_eq_at2 g _ _ (i.val - 1) (j.val - 1) (by omega) (by omega) (by omega) (by omega)
  have e2 : getOpt h w g ((i.val : Int) + (-1)) ((j.val : Int) + 0) =
      some (at2 h w g (i.val - 1) j.val) :=
    getOpt_eq_at2 g _ _ (i.val - 1) j.val (by omega) (by omega) (by omega) (by omega)
  have e3 : getOpt h w g ((i.val : Int) + (-1)) ((j.val : Int) + 1) = none :=
    getOpt_oob g _ _ (by omega)
  have e4 : getOpt h w g ((i.val : Int) + 0) ((j.val : Int) + (-1)) =
      some (at2 h w g i.val (j.val - 1)) :=
    getOpt_eq_at2 g _ _ i.val (j.val - 1) (by omega) (by omega) (by omega) (by omega)
  have e5 : getOpt h w g ((i.val : Int) + 0) ((j.val : Int) + 0) =
      some (at2 h w g i.val j.val) :=
    getOpt_eq_at2 g _ _ i.val j.val (by omega) (by omega) (by omega) (by omega)
  have e6 : getOpt h w g ((i.val : Int) + 0) ((j.val : Int) + 1) = none :=
    getOpt_oob g _ _ (by omega)
  have e7 : getOpt h w g ((i.val : Int) + 1) ((j.val : Int) + (-1)) =
      some (at2 h w g (i.val + 1) (j.val - 1)) :=
    getOpt_eq_at2 g _ _ (i.val + 1) (j.val - 1) (by omega) (by omega) (by omega) (by omega)
  have e8 : getOpt h w g ((i.val : Int) + 1) ((j.val : Int) + 0) =
      some (at2 h w g (i.val + 1) j.val) :=
    getOpt_eq_at2 g _ _ (i.val + 1) j.val (by omega) (by omega) (by omega) (by omega)
  have e9 : getOpt h w g ((i.val : Int) + 1) ((j.val : Int) + 1) = none :=
    getOpt_oob g _ _ (by omega)
  simp only [blurSpecPixel, nbrs, offs, List.filterMap_cons, List.filterMap_nil,
    e1, e2, e3, e4, e5, e6, e7, e8, e9, List.map_cons, List.map_nil,
    List.sum_cons, List.sum_nil, List.length_cons, List.length_nil, blur6,
    RGBTRIPLE.mk.injEq]
  refine ⟨roundDiv_congr _ (by omega), roundDiv_congr _ (by omega),
    roundDiv_congr _ (by omega)⟩

theorem blurSpecPixel_BL (h w : Nat) (g : Image h w) (i : Fin h) (j : Fin w)
    (hh : 2 ≤ h) (hw : 2 ≤ w) (hi : i.val = h - 1) (hj : j.val = 0) :
    blurSpecPixel h w g (i.val : Int) (j.val : Int) =
      blur4 (at2 h w g (i.val - 1) j.val) (at2 h w g (i.val - 1) (j.val + 1)) (at2 h w g i.val j.val) (at2 h w g i.val (j.val + 1)) := by
  have hiw := i.isLt
  have hjw := j.isLt
  have e1 : getOpt h w g ((i.val : Int) + (-1)) ((j.val : Int) + (-1)) = none :=
    getOpt_oob g _ _ (by omega)
  have e2 : getOpt h w g ((i.val : Int) + (-1)) ((j.val : Int) + 0) =
      some (at2 h w g (i.val - 1) j.val) :=
    getOpt_eq_at2 g _ _ (i.val - 1) j.val (by omega) (by omega) (by omega) (by omega)
  have e3 : getOpt h w g ((i.val : Int) + (-1)) ((j.val : Int) + 1) =
      some (at2 h w g (i.val - 1) (j.val + 1)) :=
    getOpt_eq_at2 g _ _ (i.val - 1) (j.val + 1) (by omega) (by omega) (by omega) (by omega)
  have e4 : getOpt h w g ((i.val : Int) + 0) ((j.val : Int) + (-1)) = none :=
    getOpt_oob g _ _ (by omega)
  have e5 : getOpt h w g ((i.val : Int) + 0) ((j.val : Int) + 0) =
      some (at2 h w g i.val j.val) :=
    getOpt_eq_at2 g _ _ i.val j.val (by omega) (by omega) (by omega) (by omega)
  have e6 : getOpt h w g ((i.val : Int) + 0) ((j.val : Int) + 1) =
      some (at2 h w g i.val (j.val + 1)) :=
    getOpt_eq_at2 g _ _ i.val (j.val + 1) (by omega) (by omega) (by omega) (by omega)
  have e7 : getOpt h w g ((i.val : Int) + 1) ((j.val : Int) + (-1)) = none :=
    getOpt_oob g _ _ (by omega)
  have e8 : getOpt h w g ((i.val : Int) + 1) ((j.val : Int) + 0) = none :=
    getOpt_oob g _ _ (by omega)
  have e9 : getOpt h w g ((i.val : Int) + 1) ((j.val : Int) + 1) = none :=
    getOpt_oob g _ _ (by omega)
  simp only [blurSpecPixel, nbrs, offs, List.filterMap_cons, List.filterMap_nil,
    e1, e2, e3, e4, e5, e6, e7, e8, e9, List.map_cons, List.map_nil,
    List.sum_cons, List.sum_nil, List.length_cons, List.length_nil, blur4,
    RGBTRIPLE.mk.injEq]
  refine ⟨roundDiv_congr _ (by omega), roundDiv_congr _ (by omega),
    roundDiv_congr _ (by omega)⟩

theorem blurSpecPixel_B (h w : Nat) (g : Image h w) (i : Fin h) (j : Fin w)
    (hh : 2 ≤ h) (hw : 2 ≤ w) (hi : i.val = h - 1) (hj1 : 0 < j.val) (hj2 : j.val < w - 1) :
    blurSpecPixel h w g (i.val : Int) (j.val : Int) =
      blur6 (at2 h w g (i.val - 1) (j.val - 1)) (at2 h w g (i.val - 1) j.val) (at2 h w g (i.val - 1) (j.val + 1)) (at2 h w g i.val (j.val - 1)) (at2 h w g i.val j.val) (at2 h w g i.val (j.val + 1)) := by
  have hiw := i.isLt
  have hjw := j.isLt
  have e1 : getOpt h w g ((i.val : Int) + (-1)) ((j.val : Int) + (-1)) =
      some (at2 h w g (i.val - 1) (j.val - 1)) :=
    getOpt_eq_at2 g _ _ (i.val - 1) (j.val - 1) (by omega) (by omega) (by omega) (by omega)
  have e2 : getOpt h w g ((i.val : Int) + (-1)) ((j.val : Int) + 0) =
      some (at2 h w g (i.val - 1) j.val) :=
    getOpt_eq_at2 g _ _ (i.val - 1) j.val (by omega) (by omega) (by omega) (by omega)
  have e3 : getOpt h w g ((i.val : Int) + (-1)) ((j.val : Int) + 1) =
      some (at2 h w g (i.val - 1) (j.val + 1)) :=
    getOpt_eq_at2 g _ _ (i.val - 1) (j.val + 1) (by omega) (by omega) (by omega) (by omega)
  have e4 : getOpt h w g ((i.val : Int) + 0) ((j.val : Int) + (-1)) =
      some (at2 h w g i.val (j.val - 1)) :=
    getOpt_eq_at2 g _ _ i.val (j.val - 1) (by omega) (by omega) (by omega) (by omega)
  have e5 : getOpt h w g ((i.val : Int) + 0) ((j.val : Int) + 0) =
      some (at2 h w g i.val j.val) :=
    getOpt_eq_at2 g _ _ i.val j.val (by omega) (by omega) (by omega) (by omega)
  have e6 : getOpt h w g ((i.val : Int) + 0) ((j.val : Int) + 1) =
      some (at2 h w g i.val (j.val + 1)) :=
    getOpt_eq_at2 g _ _ i.val (j.val + 1) (by omega) (by omega) (by omega) (by omega)
  have e7 : getOpt h w g ((i.val : Int) + 1) ((j.val : Int) + (-1)) = none :=
    getOpt_oob g _ _ (by omega)
  have e8 : getOpt h w g ((i.val : Int) + 1) ((j.val : Int) + 0) = none :=
    getOpt_oob g _ _ (by omega)
  have e9 : getOpt h w g ((i.val : Int) + 1) ((j.val : Int) + 1) = none :=
    getOpt_oob g _ _ (by omega)
  simp only [blurSpecPixel, nbrs, offs, List.filterMap_cons, List.filterMap_nil,
    e1, e2, e3, e4, e5, e6, e7, e8, e9, List.map_cons, List.map_nil,
    List.sum_cons, List.sum_nil, List.length_cons, List.length_nil, blur6,
    RGBTRIPLE.mk.injEq]
  refine ⟨roundDiv_congr _ (by omega), roundDiv_congr _ (by omega),
    roundDiv_congr _ (by omega)⟩

theorem blurSpecPixel_BR (h w : Nat) (g : Image h w) (i : Fin h) (j : Fin w)
    (hh : 2 ≤ h) (hw : 2 ≤ w) (hi : i.val = h - 1) (hj : j.val = w - 1) :
    blurSpecPixel h w g (i.val : Int) (j.val : Int) =
      blur4 (at2 h w g (i.val - 1) (j.val - 1)) (at2 h w g (i.val - 1) j.val) (at2 h w g i.val (j.val - 1)) (at2 h w g i.val j.val) := by
  have hiw := i.isLt
  have hjw := j.isLt
  have e1 : getOpt h w g ((i.val : Int) + (-1)) ((j.val : Int) + (-1)) =
      some (at2 h w g (i.val - 1) (j.val - 1)) :=
    getOpt_eq_at2 g _ _ (i.val - 1) (j.val - 1) (by omega) (by omega) (by omega) (by omega)
  have e2 : getOpt h w g ((i.val : Int) + (-1)) ((j.val : Int) + 0) =
      some (at2 h w g (i.val - 1) j.val) :=
    getOpt_eq_at2 g _ _ (i.val - 1) j.val (by omega) (by omega) (by omega) (by omega)
  have e3 : getOpt h w g ((i.val : Int) + (-1)) ((j.val : Int) + 1) = none :=
    getOpt_oob g _ _ (by omega)
  have e4 : getOpt h w g ((i.val : Int) + 0) ((j.val : Int) + (-1)) =
      some (at2 h w g i.val (j.val - 1)) :=
    getOpt_eq_at2 g _ _ i.val (j.val - 1) (by omega) (by omega) (by omega) (by omega)
  have e5 : getOpt h w g ((i.val : Int) + 0) ((j.val : Int) + 0) =
      some (at2 h w g i.val j.val) :=
    getOpt_eq_at2 g _ _ i.val j.val (by omega) (by omega) (by omega) (by omega)
  have e6 : getOpt h w g ((i.val : Int) + 0) ((j.val : Int) + 1) = none :=
    getOpt_oob g _ _ (by omega)
  have e7 : getOpt h w g ((i.val : Int) + 1) ((j.val : Int) + (-1)) = none :=
    getOpt_oob g _ _ (by omega)
  have e8 : getOpt h w g ((i.val : Int) + 1) ((j.val : Int) + 0) = none :=
    getOpt_oob g _ _ (by omega)
  have e9 : getOpt h w g ((i.val : Int) + 1) ((j.val : Int) + 1) = none :=
    getOpt_oob g _ _ (by omega)
  simp only [blurSpecPixel, nbrs, offs, List.filterMap_cons, List.filterMap_nil,
    e1, e2, e3, e4, e5, e6, e7, e8, e9, List.map_cons, List.map_nil,
    List.sum_cons, List.sum_nil, List.length_cons, List.length_nil, blur4,
    RGBTRIPLE.mk.injEq]
  refine ⟨roundDiv_congr _ (by omega), roundDiv_congr _ (by omega),
    roundDiv_congr _ (by omega)⟩

/-! ## Evaluation of `edgesSpecPixel` in each region -/

theorem edgesSpecPixel_TL (h w : Nat) (g : Image h w) (i : Fin h) (j : Fin w)
    (hh : 2 ≤ h) (hw : 2 ≤ w) (hi : i.val = 0) (hj : j.val = 0) :
    edgesSpecPixel h w g (i.val : Int) (j.val : Int) =
      edgeTL (at2 h w g i.val j.val) (at2 h w g i.val (j.val + 1)) (at2 h w g (i.val + 1) j.val) (at2 h w g (i.val + 1) (j.val + 1)) := by
  have hiw := i.isLt
  have hjw := j.isLt
  have p1 : ∀ f : RGBTRIPLE → Nat, padChan h w g f ((i.val : Int) + (-1)) ((j.val : Int) + (-1)) = 0 := fun f => by
    unfold padChan
    rw [getOpt_oob g _ _ (by omega)]
  have p2 : ∀ f : RGBTRIPLE → Nat, padChan h w g f ((i.val : Int) + (-1)) ((j.val : Int) + 0) = 0 := fun f => by
    unfold padChan
    rw [getOpt_oob g _ _ (by omega)]
  have p3 : ∀ f : RGBTRIPLE → Nat, padChan h w g f ((i.val : Int) + (-1)) ((j.val : Int) + 1) = 0 := fun f => by
    unfold padChan
    rw [getOpt_oob g _ _ (by omega)]
  have p4 : ∀ f : RGBTRIPLE → Nat, padChan h w g f ((i.val : Int) + 0) ((j.val : Int) + (-1)) = 0 := fun f => by
    unfold padChan
    rw [getOpt_oob g _ _ (by omega)]
  have p5 : ∀ f : RGBTRIPLE → Nat, padChan h w g f ((i.val : Int) + 0) ((j.val : Int) + 0) =
      ((f (at2 h w g i.val j.val) : Nat) : Int) := fun f => by
    unfold padChan
    rw [getOpt_eq_at2 g _ _ i.val j.val (by omega) (by omega) (by omega) (by omega)]
  have p6 : ∀ f : RGBTRIPLE → Nat, padChan h w g f ((i.val : Int) + 0) ((j.val : Int) + 1) =
      ((f (at2 h w g i.val (j.val + 1)) : Nat) : Int) := fun f => by
    unfold padChan
    rw [getOpt_eq_at2 g _ _ i.val (j.val + 1) (by omega) (by omega) (by omega) (by omega)]
  have p7 : ∀ f : RGBTRIPLE → Nat, padChan h w g f ((i.val : Int) + 1) ((j.val : Int) + (-1)) = 0 := fun f => by
    unfold padChan
    rw [getOpt_oob g _ _ (by omega)]
  have p8 : ∀ f : RGBTRIPLE → Nat, padChan h w g f ((i.val : Int) + 1) ((j.val : Int) + 0) =
      ((f (at2 h w g (i.val + 1) j.val) : Nat) : Int) := fun f => by
    unfold padChan
    rw [getOpt_eq_at2 g _ _ (i.val + 1) j.val (by omega) (by omega) (by omega) (by omega)]
  have p9 : ∀ f : RGBTRIPLE → Nat, padChan h w g f ((i.val : Int) + 1) ((j.val : Int) + 1) =
      ((f (at2 h w g (i.val + 1) (j.val + 1)) : Nat) : Int) := fun f => by
    unfold padChan
    rw [getOpt_eq_at2 g _ _ (i.val + 1) (j.val + 1) (by omega) (by omega) (by omega) (by omega)]
  simp only [edgesSpecPixel, gradSum, sobelGx, sobelGy, List.map_cons, List.map_nil,
    List.sum_cons, List.sum_nil, p1, p2, p3, p4, p5, p6, p7, p8, p9, edgeTL,
    RGBTRIPLE.mk.injEq]
  refine ⟨sobelVal_congr (by omega) (by omega), sobelVal_congr (by omega) (by omega),
    sobelVal_congr (by omega) (by omega)⟩

theorem edgesSpecPixel_T (h w : Nat) (g : Image h w) (i : Fin h) (j : Fin w)
    (hh : 2 ≤ h) (hw : 2 ≤ w) (hi : i.val = 0) (hj1 : 0 < j.val) (hj2 : j.val < w - 1) :
    edgesSpecPixel h w g (i.val : Int) (j.val : Int) =
      edgeT (at2 h w g i.val (j.val - 1)) (at2 h w g i.val j.val) (at2 h w g i.val (j.val + 1)) (at2 h w g (i.val + 1) (j.val - 1)) (at2 h w g (i.val + 1) j.val) (at2 h w g (i.val + 1) (j.val + 1)) := by
  have hiw := i.isLt
  have hjw := j.isLt
  have p1 : ∀ f : RGBTRIPLE → Nat, padChan h w g f ((i.val : Int) + (-1)) ((j.val : Int) + (-1)) = 0 := fun f => by
    unfold padChan
    rw [getOpt_oob g _ _ (by omega)]
  have p2 : ∀ f : RGBTRIPLE → Nat, padChan h w g f ((i.val : Int) + (-1)) ((j.val : Int) + 0) = 0 := fun f => by
    unfold padChan
    rw [getOpt_oob g _ _ (by omega)]
  have p3 : ∀ f : RGBTRIPLE → Nat, padChan h w g f ((i.val : Int) + (-1)) ((j.val : Int) + 1) = 0 := fun f => by
    unfold padChan
    rw [getOpt_oob g _ _ (by omega)]
  have p4 : ∀ f : RGBTRIPLE → Nat, padChan h w g f ((i.val : Int) + 0) ((j.val : Int) + (-1)) =
      ((f (at2 h w g i.val (j.val - 1)) : Nat) : Int) := fun f => by
    unfold padChan
    rw [getOpt_eq_at2 g _ _ i.val (j.val - 1) (by omega) (by omega) (by omega) (by omega)]
  have p5 : ∀ f : RGBTRIPLE → Nat, padChan h w g f ((i.val : Int) + 0) ((j.val : Int) + 0) =
      ((f (at2 h w g i.val j.val) : Nat) : Int) := fun f => by
    unfold padChan
    rw [getOpt_eq_at2 g _ _ i.val j.val (by omega) (by omega) (by omega) (by omega)]
  have p6 : ∀ f : RGBTRIPLE → Nat, padChan h w g f ((i.val : Int) + 0) ((j.val : Int) + 1) =
      ((f (at2 h w g i.val (j.val + 1)) : Nat) : Int) := fun f => by
    unfold padChan
    rw [getOpt_eq_at2 g _ _ i.val (j.val + 1) (by omega) (by omega) (by omega) (by omega)]
  have p7 : ∀ f : RGBTRIPLE → Nat, padChan h w g f ((i.val : Int) + 1) ((j.val : Int) + (-1)) =
      ((f (at2 h w g (i.val + 1) (j.val - 1)) : Nat) : Int) := fun f => by
    unfold padChan
    rw [getOpt_eq_at2 g _ _ (i.val + 1) (j.val - 1) (by omega) (by omega) (by omega) (by omega)]
  have p8 : ∀ f : RGBTRIPLE → Nat, padChan h w g f ((i.val : Int) + 1) ((j.val : Int) + 0) =
      ((f (at2 h w g (i.val + 1) j.val) : Nat) : Int) := fun f => by
    unfold padChan
    rw [getOpt_eq_at2 g _ _ (i.val + 1) j.val (by omega) (by omega) (by omega) (by omega)]
  have p9 : ∀ f : RGBTRIPLE → Nat, padChan h w g f ((i.val : Int) + 1) ((j.val : Int) + 1) =
      ((f (at2 h w g (i.val + 1) (j.val + 1)) : Nat) : Int) := fun f => by
    unfold padChan
    rw [getOpt_eq_at2 g _ _ (i.val + 1) (j.val + 1) (by omega) (by omega) (by omega) (by omega)]
  simp only [edgesSpecPixel, gradSum, sobelGx, sobelGy, List.map_cons, List.map_nil,
    List.sum_cons, List.sum_nil, p1, p2, p3, p4, p5, p6, p7, p8, p9, edgeT,
    RGBTRIPLE.mk.injEq]
  refine ⟨sobelVal_congr (by omega) (by omega), sobelVal_congr (by omega) (by omega),
    sobelVal_congr (by omega) (by omega)⟩

theorem edgesSpecPixel_TR (h w : Nat) (g : Image h w) (i : Fin h) (j : Fin w)
    (hh : 2 ≤ h) (hw : 2 ≤ w) (hi : i.val = 0) (hj : j.val = w - 1) :
    edgesSpecPixel h w g (i.val : Int) (j.val : Int) =
      edgeTR (at2 h w g i.val (j.val - 1)) (at2 h w g i.val j.val) (at2 h w g (i.val + 1) (j.val - 1)) (at2 h w g (i.val + 1) j.val) := by
  have hiw := i.isLt
  have hjw := j.isLt
  have p1 : ∀ f : RGBTRIPLE → Nat, padChan h w g f ((i.val : Int) + (-1)) ((j.val : Int) + (-1)) = 0 := fun f => by
    unfold padChan
    rw [getOpt_oob g _ _ (by omega)]
  have p2 : ∀ f : RGBTRIPLE → Nat, padChan h w g f ((i.val : Int) + (-1)) ((j.val : Int) + 0) = 0 := fun f => by
    unfold padChan
    rw [getOpt_oob g _ _ (by omega)]
  have p3 : ∀ f : RGBTRIPLE → Nat, padChan h w g f ((i.val : Int) + (-1)) ((j.val : Int) + 1) = 0 := fun f => by
    unfold padChan
    rw [getOpt_oob g _ _ (by omega)]
  have p4 : ∀ f : RGBTRIPLE → Nat, padChan h w g f ((i.val : Int) + 0) ((j.val : Int) + (-1)) =
      ((f (at2 h w g i.val (j.val - 1)) : Nat) : Int) := fun f => by
    unfold padChan
    rw [getOpt_eq_at2 g _ _ i.val (j.val - 1) (by omega) (by omega) (by omega) (by omega)]
  have p5 : ∀ f : RGBTRIPLE → Nat, padChan h w g f ((i.val : Int) + 0) ((j.val : Int) + 0) =
      ((f (at2 h w g i.val j.val) : Nat) : Int) := fun f => by
    unfold padChan
    rw [getOpt_eq_at2 g _ _ i.val j.val (by omega) (by omega) (by omega) (by omega)]
  have p6 : ∀ f : RGBTRIPLE → Nat, padChan h w g f ((i.val : Int) + 0) ((j.val : Int) + 1) = 0 := fun f => by
    unfold padChan
    rw [getOpt_oob g _ _ (by omega)]
  have p7 : ∀ f : RGBTRIPLE → Nat, padChan h w g f ((i.val : Int) + 1) ((j.val : Int) + (-1)) =
      ((f (at2 h w g (i.val + 1) (j.val - 1)) : Nat) : Int) := fun f => by
    unfold padChan
    rw [getOpt_eq_at2 g _ _ (i.val + 1) (j.val - 1) (by omega) (by omega) (by omega) (by omega)]
  have p8 : ∀ f : RGBTRIPLE → Nat, padChan h w g f ((i.val : Int) + 1) ((j.val : Int) + 0) =
      ((f (at2 h w g (i.val + 1) j.val) : Nat) : Int) := fun f => by
    unfold padChan
    rw [getOpt_eq_at2 g _ _ (i.val + 1) j.val (by omega) (by omega) (by omega) (by omega)]
  have p9 : ∀ f : RGBTRIPLE → Nat, padChan h w g f ((i.val : Int) + 1) ((j.val : Int) + 1) = 0 := fun f => by
    unfold padChan
    rw [getOpt_oob g _ _ (by omega)]
  simp only [edgesSpecPixel, gradSum, sobelGx, sobelGy, List.map_cons, List.map_nil,
    List.sum_cons, List.sum_nil, p1, p2, p3, p4, p5, p6, p7, p8, p9, edgeTR,
    RGBTRIPLE.mk.injEq]
  refine ⟨sobelVal_congr (by omega) (by omega), sobelVal_congr (by omega) (by omega),
    sobelVal_congr (by omega) (by omega)⟩

theorem edgesSpecPixel_L (h w : Nat) (g : Image h w) (i : Fin h) (j : Fin w)
    (hh : 2 ≤ h) (hw : 2 ≤ w) (hi1 : 0 < i.val) (hi2 : i.val < h - 1) (hj : j.val = 0) :
    edgesSpecPixel h w g (i.val : Int) (j.val : Int) =
      edgeL (at2 h w g (i.val - 1) j.val) (at2 h w g (i.val - 1) (j.val + 1)) (at2 h w g i.val j.val) (at2 h w g i.val (j.val + 1)) (at2 h w g (i.val + 1) j.val) (at2 h w g (i.val + 1) (j.val + 1)) := by
  have hiw := i.isLt
  have hjw := j.isLt
  have p1 : ∀ f : RGBTRIPLE → Nat, padChan h w g f ((i.val : Int) + (-1)) ((j.val : Int) + (-1)) = 0 := fun f => by
    unfold padChan
    rw [getOpt_oob g _ _ (by omega)]
  have p2 : ∀ f : RGBTRIPLE → Nat, padChan h w g f ((i.val : Int) + (-1)) ((j.val : Int) + 0) =
      ((f (at2 h w g (i.val - 1) j.val) : Nat) : Int) := fun f => by
    unfold padChan
    rw [getOpt_eq_at2 g _ _ (i.val - 1) j.val (by omega) (by omega) (by omega) (by omega)]
  have p3 : ∀ f : RGBTRIPLE → Nat, padChan h w g f ((i.val : Int) + (-1)) ((j.val : Int) + 1) =
      ((f (at2 h w g (i.val - 1) (j.val + 1)) : Nat) : Int) := fun f => by
    unfold padChan
    rw [getOpt_eq_at2 g _ _ (i.val - 1) (j.val + 1) (by omega) (by omega) (by omega) (by omega)]
  have p4 : ∀ f : RGBTRIPLE → Nat, padChan h w g f ((i.val : Int) + 0) ((j.val : Int) + (-1)) = 0 := fun f => by
    unfold padChan
    rw [getOpt_oob g _ _ (by omega)]
  have p5 : ∀ f : RGBTRIPLE → Nat, padChan h w g f ((i.val : Int) + 0) ((j.val : Int) + 0) =
      ((f (at2 h w g i.val j.val) : Nat) : Int) := fun f => by
    unfold padChan
    rw [getOpt_eq_at2 g _ _ i.val j.val (by omega) (by omega) (by omega) (by omega)]
  have p6 : ∀ f : RGBTRIPLE → Nat, padChan h w g f ((i.val : Int) + 0) ((j.val : Int) + 1) =
      ((f (at2 h w g i.val (j.val + 1)) : Nat) : Int) := fun f => by
    unfold padChan
    rw [getOpt_eq_at2 g _ _ i.val (j.val + 1) (by omega) (by omega) (by omega) (by omega)]
  have p7 : ∀ f : RGBTRIPLE → Nat, padChan h w g f ((i.val : Int) + 1) ((j.val : Int) + (-1)) = 0 := fun f => by
    unfold padChan
    rw [getOpt_oob g _ _ (by omega)]
  have p8 : ∀ f : RGBTRIPLE → Nat, padChan h w g f ((i.val : Int) + 1) ((j.val : Int) + 0) =
      ((f (at2 h w g (i.val + 1) j.val) : Nat) : Int) := fun f => by
    unfold padChan
    rw [getOpt_eq_at2 g _ _ (i.val + 1) j.val (by omega) (by omega) (by omega) (by omega)]
  have p9 : ∀ f : RGBTRIPLE → Nat, padChan h w g f ((i.val : Int) + 1) ((j.val : Int) + 1) =
      ((f (at2 h w g (i.val + 1) (j.val + 1)) : Nat) : Int) := fun f => by
    unfold padChan
    rw [getOpt_eq_at2 g _ _ (i.val + 1) (j.val + 1) (by omega) (by omega) (by omega) (by omega)]
  simp only [edgesSpecPixel, gradSum, sobelGx, sobelGy, List.map_cons, List.map_nil,
    List.sum_cons, List.sum_nil, p1, p2, p3, p4, p5, p6, p7, p8, p9, edgeL,
    RGBTRIPLE.mk.injEq]
  refine ⟨sobelVal_congr (by omega) (by omega), sobelVal_congr (by omega) (by omega),
    sobelVal_congr (by omega) (by omega)⟩

theorem edgesSpecPixel_M (h w : Nat) (g : Image h w) (i : Fin h) (j : Fin w)
    (hh : 2 ≤ h) (hw : 2 ≤ w) (hi1 : 0 < i.val) (hi2 : i.val < h - 1) (hj1 : 0 < j.val) (hj2 : j.val < w - 1) :
    edgesSpecPixel h w g (i.val : Int) (j.val : Int) =
      edgeM (at2 h w g (i.val - 1) (j.val - 1)) (at2 h w g (i.val - 1) j.val) (at2 h w g (i.val - 1) (j.val + 1)) (at2 h w g i.val (j.val - 1)) (at2 h w g i.val j.val) (at2 h w g i.val (j.val + 1)) (at2 h w g (i.val + 1) (j.val - 1)) (at2 h w g (i.val + 1) j.val) (at2 h w g (i.val + 1) (j.val + 1)) := by
  have hiw := i.isLt
  have hjw := j.isLt
  have p1 : ∀ f : RGBTRIPLE → Nat, padChan h w g f ((i.val : Int) + (-1)) ((j.val : Int) + (-1)) =
      ((f (at2 h w g (i.val - 1) (j.val - 1)) : Nat) : Int) := fun f => by
    unfold padChan
    rw [getOpt_eq_at2 g _ _ (i.val - 1) (j.val - 1) (by omega) (by omega) (by omega) (by omega)]
  have p2 : ∀ f : RGBTRIPLE → Nat, padChan h w g f ((i.val : Int) + (-1)) ((j.val : Int) + 0) =
      ((f (at2 h w g (i.val - 1) j.val) : Nat) : Int) := fun f => by
    unfold padChan
    rw [getOpt_eq_at2 g _ _ (i.val - 1) j.val (by omega) (by omega) (by omega) (by omega)]
  have p3 : ∀ f : RGBTRIPLE → Nat, padChan h w g f ((i.val : Int) + (-1)) ((j.val : Int) + 1) =
      ((f (at2 h w g (i.val - 1) (j.val + 1)) : Nat) : Int) := fun f => by
    unfold padChan
    rw [getOpt_eq_at2 g _ _ (i.val - 1) (j.val + 1) (by omega) (by omega) (by omega) (by omega)]
  have p4 : ∀ f : RGBTRIPLE → Nat, padChan h w g f ((i.val : Int) + 0) ((j.val : Int) + (-1)) =
      ((f (at2 h w g i.val (j.val - 1)) : Nat) : Int) := fun f => by
    unfold padChan
    rw [getOpt_eq_at2 g _ _ i.val (j.val - 1) (by omega) (by omega) (by omega) (by omega)]
  have p5 : ∀ f : RGBTRIPLE → Nat, padChan h w g f ((i.val : Int) + 0) ((j.val : Int) + 0) =
      ((f (at2 h w g i.val j.val) : Nat) : Int) := fun f => by
    unfold padChan
    rw [getOpt_eq_at2 g _ _ i.val j.val (by omega) (by omega) (by omega) (by omega)]
  have p6 : ∀ f : RGBTRIPLE → Nat, padChan h w g f ((i.val : Int) + 0) ((j.val : Int) + 1) =
      ((f (at2 h w g i.val (j.val + 1)) : Nat) : Int) := fun f => by
    unfold padChan
    rw [getOpt_eq_at2 g _ _ i.val (j.val + 1) (by omega) (by omega) (by omega) (by omega)]
  have p7 : ∀ f : RGBTRIPLE → Nat, padChan h w g f ((i.val : Int) + 1) ((j.val : Int) + (-1)) =
      ((f (at2 h w g (i.val + 1) (j.val - 1)) : Nat) : Int) := fun f => by
    unfold padChan
    rw [getOpt_eq_at2 g _ _ (i.val + 1) (j.val - 1) (by omega) (by omega) (by omega) (by omega)]
  have p8 : ∀ f : RGBTRIPLE → Nat, padChan h w g f ((i.val : Int) + 1) ((j.val : Int) + 0) =
      ((f (at2 h w g (i.val + 1) j.val) : Nat) : Int) := fun f => by
    unfold padChan
    rw [getOpt_eq_at2 g _ _ (i.val + 1) j.val (by omega) (by omega) (by omega) (by omega)]
  have p9 : ∀ f : RGBTRIPLE → Nat, padChan h w g f ((i.val : Int) + 1) ((j.val : Int) + 1) =
      ((f (at2 h w g (i.val + 1) (j.val + 1)) : Nat) : Int) := fun f => by
    unfold padChan
    rw [getOpt_eq_at2 g _ _ (i.val + 1) (j.val + 1) (by omega) (by omega) (by omega) (by omega)]
  simp only [edgesSpecPixel, gradSum, sobelGx, sobelGy, List.map_cons, List.map_nil,
    List.sum_cons, List.sum_nil, p1, p2, p3, p4, p5, p6, p7, p8, p9, edgeM,
    RGBTRIPLE.mk.injEq]
  refine ⟨sobelVal_congr (by omega) (by omega), sobelVal_congr (by omega) (by omega),
    sobelVal_congr (by omega) (by omega)⟩

theorem edgesSpecPixel_R (h w : Nat) (g : Image h w) (i : Fin h) (j : Fin w)
    (hh : 2 ≤ h) (hw : 2 ≤ w) (hi1 : 0 < i.val) (hi2 : i.val < h - 1) (hj : j.val = w - 1) :
    edgesSpecPixel h w g (i.val : Int) (j.val : Int) =
      edgeR (at2 h w g (i.val - 1) (j.val - 1)) (at2 h w g (i.val - 1) j.val) (at2 h w g i.val (j.val - 1)) (at2 h w g i.val j.val) (at2 h w g (i.val + 1) (j.val - 1)) (at2 h w g (i.val + 1) j.val) := by
  have hiw := i.isLt
  have hjw := j.isLt
  have p1 : ∀ f : RGBTRIPLE → Nat, padChan h w g f ((i.val : Int) + (-1)) ((j.val : Int) + (-1)) =
      ((f (at2 h w g (i.val - 1) (j.val - 1)) : Nat) : Int) := fun f => by
    unfold padChan
    rw [getOpt_eq_at2 g _ _ (i.val - 1) (j.val - 1) (by omega) (by omega) (by omega) (by omega)]
  have p2 : ∀ f : RGBTRIPLE → Nat, padChan h w g f ((i.val : Int) + (-1)) ((j.val : Int) + 0) =
      ((f (at2 h w g (i.val - 1) j.val) : Nat) : Int) := fun f => by
    unfold padChan
    rw [getOpt_eq_at2 g _ _ (i.val - 1) j.val (by omega) (by omega) (by omega) (by omega)]
  have p3 : ∀ f : RGBTRIPLE → Nat, padChan h w g f ((i.val : Int) + (-1)) ((j.val : Int) + 1) = 0 := fun f => by
    unfold padChan
    rw [getOpt_oob g _ _ (by omega)]
  have p4 : ∀ f : RGBTRIPLE → Nat, padChan h w g f ((i.val : Int) + 0) ((j.val : Int) + (-1)) =
      ((f (at2 h w g i.val (j.val - 1)) : Nat) : Int) := fun f => by
    unfold padChan
    rw [getOpt_eq_at2 g _ _ i.val (j.val - 1) (by omega) (by omega) (by omega) (by omega)]
  have p5 : ∀ f : RGBTRIPLE → Nat, padChan h w g f ((i.val : Int) + 0) ((j.val : Int) + 0) =
      ((f (at2 h w g i.val j.val) : Nat) : Int) := fun f => by
    unfold padChan
    rw [getOpt_eq_at2 g _ _ i.val j.val (by omega) (by omega) (by omega) (by omega)]
  have p6 : ∀ f : RGBTRIPLE → Nat, padChan h w g f ((i.val : Int) + 0) ((j.val : Int) + 1) = 0 := fun f => by
    unfold padChan
    rw [getOpt_oob g _ _ (by omega)]
  have p7 : ∀ f : RGBTRIPLE → Nat, padChan h w g f ((i.val : Int) + 1) ((j.val : Int) + (-1)) =
      ((f (at2 h w g (i.val + 1) (j.val - 1)) : Nat) : Int) := fun f => by
    unfold padChan
    rw [getOpt_eq_at2 g _ _ (i.val + 1) (j.val - 1) (by omega) (by omega) (by omega) (by omega)]
  have p8 : ∀ f : RGBTRIPLE → Nat, padChan h w g f ((i.val : Int) + 1) ((j.val : Int) + 0) =
      ((f (at2 h w g (i.val + 1) j.val) : Nat) : Int) := fun f => by
    unfold padChan
    rw [getOpt_eq_at2 g _ _ (i.val + 1) j.val (by omega) (by omega) (by omega) (by omega)]
  have p9 : ∀ f : RGBTRIPLE → Nat, padChan h w g f ((i.val : Int) + 1) ((j.val : Int) + 1) = 0 := fun f => by
    unfold padChan
    rw [getOpt_oob g _ _ (by omega)]
  simp only [edgesSpecPixel, gradSum, sobelGx, sobelGy, List.map_cons, List.map_nil,
    List.sum_cons, List.sum_nil, p1, p2, p3, p4, p5, p6, p7, p8, p9, edgeR,
    RGBTRIPLE.mk.injEq]
  refine ⟨sobelVal_congr (by omega) (by omega), sobelVal_congr (by omega) (by omega),
    sobelVal_congr (by omega) (by omega)⟩

theorem edgesSpecPixel_BL (h w : Nat) (g : Image h w) (i : Fin h) (j : Fin w)
    (hh : 2 ≤ h) (hw : 2 ≤ w) (hi : i.val = h - 1) (hj : j.val = 0) :
    edgesSpecPixel h w g (i.val : Int) (j.val : Int) =
      edgeBL (at2 h w g (i.val - 1) j.val) (at2 h w g (i.val - 1) (j.val + 1)) (at2 h w g i.val j.val) (at2 h w g i.val (j.val + 1)) := by
  have hiw := i.isLt
  have hjw := j.isLt
  have p1 : ∀ f : RGBTRIPLE → Nat, padChan h w g f ((i.val : Int) + (-1)) ((j.val : Int) + (-1)) = 0 := fun f => by
    unfold padChan
    rw [getOpt_oob g _ _ (by omega)]
  have p2 : ∀ f : RGBTRIPLE → Nat, padChan h w g f ((i.val : Int) + (-1)) ((j.val : Int) + 0) =
      ((f (at2 h w g (i.val - 1) j.val) : Nat) : Int) := fun f => by
    unfold padChan
    rw [getOpt_eq_at2 g _ _ (i.val - 1) j.val (by omega) (by omega) (by omega) (by omega)]
  have p3 : ∀ f : RGBTRIPLE → Nat, padChan h w g f ((i.val : Int) + (-1)) ((j.val : Int) + 1) =
      ((f (at2 h w g (i.val - 1) (j.val + 1)) : Nat) : Int) := fun f => by
    unfold padChan
    rw [getOpt_eq_at2 g _ _ (i.val - 1) (j.val + 1) (by omega) (by omega) (by omega) (by omega)]
  have p4 : ∀ f : RGBTRIPLE → Nat, padChan h w g f ((i.val : Int) + 0) ((j.val : Int) + (-1)) = 0 := fun f => by
    unfold padChan
    rw [getOpt_oob g _ _ (by omega)]
  have p5 : ∀ f : RGBTRIPLE → Nat, padChan h w g f ((i.val : Int) + 0) ((j.val : Int) + 0) =
      ((f (at2 h w g i.val j.val) : Nat) : Int) := fun f => by
    unfold padChan
    rw [getOpt_eq_at2 g _ _ i.val j.val (by omega) (by omega) (by omega) (by omega)]
  have p6 : ∀ f : RGBTRIPLE → Nat, padChan h w g f ((i.val : Int) + 0) ((j.val : Int) + 1) =
      ((f (at2 h w g i.val (j.val + 1)) : Nat) : Int) := fun f => by
    unfold padChan
    rw [getOpt_eq_at2 g _ _ i.val (j.val + 1) (by omega) (by omega) (by omega) (by omega)]
  have p7 : ∀ f : RGBTRIPLE → Nat, padChan h w g f ((i.val : Int) + 1) ((j.val : Int) + (-1)) = 0 := fun f => by
    unfold padChan
    rw [getOpt_oob g _ _ (by omega)]
  have p8 : ∀ f : RGBTRIPLE → Nat, padChan h w g f ((i.val : Int) + 1) ((j.val : Int) + 0) = 0 := fun f => by
    unfold padChan
    rw [getOpt_oob g _ _ (by omega)]
  have p9 : ∀ f : RGBTRIPLE → Nat, padChan h w g f ((i.val : Int) + 1) ((j.val : Int) + 1) = 0 := fun f => by
    unfold padChan
    rw [getOpt_oob g _ _ (by omega)]
  simp only [edgesSpecPixel, gradSum, sobelGx, sobelGy, List.map_cons, List.map_nil,
    List.sum_cons, List.sum_nil, p1, p2, p3, p4, p5, p6, p7, p8, p9, edgeBL,
    RGBTRIPLE.mk.injEq]
  refine ⟨sobelVal_congr (by omega) (by omega), sobelVal_congr (by omega) (by omega),
    sobelVal_congr (by omega) (by omega)⟩

theorem edgesSpecPixel_B (h w : Nat) (g : Image h w) (i : Fin h) (j : Fin w)
    (hh : 2 ≤ h) (hw : 2 ≤ w) (hi : i.val = h - 1) (hj1 : 0 < j.val) (hj2 : j.val < w - 1) :
    edgesSpecPixel h w g (i.val : Int) (j.val : Int) =
      edgeB (at2 h w g (i.val - 1) (j.val - 1)) (at2 h w g (i.val - 1) j.val) (at2 h w g (i.val - 1) (j.val + 1)) (at2 h w g i.val (j.val - 1)) (at2 h w g i.val j.val) (at2 h w g i.val (j.val + 1)) := by
  have hiw := i.isLt
  have hjw := j.isLt
  have p1 : ∀ f : RGBTRIPLE → Nat, padChan h w g f ((i.val : Int) + (-1)) ((j.val : Int) + (-1)) =
      ((f (at2 h w g (i.val - 1) (j.val - 1)) : Nat) : Int) := fun f => by
    unfold padChan
    rw [getOpt_eq_at2 g _ _ (i.val - 1) (j.val - 1) (by omega) (by omega) (by omega) (by omega)]
  have p2 : ∀ f : RGBTRIPLE → Nat, padChan h w g f ((i.val : Int) + (-1)) ((j.val : Int) + 0) =
      ((f (at2 h w g (i.val - 1) j.val) : Nat) : Int) := fun f => by
    unfold padChan
    rw [getOpt_eq_at2 g _ _ (i.val - 1) j.val (by omega) (by omega) (by omega) (by omega)]
  have p3 : ∀ f : RGBTRIPLE → Nat, padChan h w g f ((i.val : Int) + (-1)) ((j.val : Int) + 1) =
      ((f (at2 h w g (i.val - 1) (j.val + 1)) : Nat) : Int) := fun f => by
    unfold padChan
    rw [getOpt_eq_at2 g _ _ (i.val - 1) (j.val + 1) (by omega) (by omega) (by omega) (by omega)]
  have p4 : ∀ f : RGBTRIPLE → Nat, padChan h w g f ((i.val : Int) + 0) ((j.val : Int) + (-1)) =
      ((f (at2 h w g i.val (j.val - 1)) : Nat) : Int) := fun f => by
    unfold padChan
    rw [getOpt_eq_at2 g _ _ i.val (j.val - 1) (by omega) (by omega) (by omega) (by omega)]
  have p5 : ∀ f : RGBTRIPLE → Nat, padChan h w g f ((i.val : Int) + 0) ((j.val : Int) + 0) =
      ((f (at2 h w g i.val j.val) : Nat) : Int) := fun f => by
    unfold padChan
    rw [getOpt_eq_at2 g _ _ i.val j.val (by omega) (by omega) (by omega) (by omega)]
  have p6 : ∀ f : RGBTRIPLE → Nat, padChan h w g f ((i.val : Int) + 0) ((j.val : Int) + 1) =
      ((f (at2 h w g i.val (j.val + 1)) : Nat) : Int) := fun f => by
    unfold padChan
    rw [getOpt_eq_at2 g _ _ i.val (j.val + 1) (by omega) (by omega) (by omega) (by omega)]
  have p7 : ∀ f : RGBTRIPLE → Nat, padChan h w g f ((i.val : Int) + 1) ((j.val : Int) + (-1)) = 0 := fun f => by
    unfold padChan
    rw [getOpt_oob g _ _ (by omega)]
  have p8 : ∀ f : RGBTRIPLE → Nat, padChan h w g f ((i.val : Int) + 1) ((j.val : Int) + 0) = 0 := fun f => by
    unfold padChan
    rw [getOpt_oob g _ _ (by omega)]
  have p9 : ∀ f : RGBTRIPLE → Nat, padChan h w g f ((i.val : Int) + 1) ((j.val : Int) + 1) = 0 := fun f => by
    unfold padChan
    rw [getOpt_oob g _ _ (by omega)]
  simp only [edgesSpecPixel, gradSum, sobelGx, sobelGy, List.map_cons, List.map_nil,
    List.sum_cons, List.sum_nil, p1, p2, p3, p4, p5, p6, p7, p8, p9, edgeB,
    RGBTRIPLE.mk.injEq]
  refine ⟨sobelVal_congr (by omega) (by omega), sobelVal_congr (by omega) (by omega),
    sobelVal_congr (by omega) (by omega)⟩

theorem edgesSpecPixel_BR (h w : Nat) (g : Image h w) (i : Fin h) (j : Fin w)
    (hh : 2 ≤ h) (hw : 2 ≤ w) (hi : i.val = h - 1) (hj : j.val = w - 1) :
    edgesSpecPixel h w g (i.val : Int) (j.val : Int) =
      edgeBR (at2 h w g (i.val - 1) (j.val - 1)) (at2 h w g (i.val - 1) j.val) (at2 h w g i.val (j.val - 1)) (at2 h w g i.val j.val) := by
  have hiw := i.isLt
  have hjw := j.isLt
  have p1 : ∀ f : RGBTRIPLE → Nat, padChan h w g f ((i.val : Int) + (-1)) ((j.val : Int) + (-1)) =
      ((f (at2 h w g (i.val - 1) (j.val - 1)) : Nat) : Int) := fun f => by
    unfold padChan
    rw [getOpt_eq_at2 g _ _ (i.val - 1) (j.val - 1) (by omega) (by omega) (by omega) (by omega)]
  have p2 : ∀ f : RGBTRIPLE → Nat, padChan h w g f ((i.val : Int) + (-1)) ((j.val : Int) + 0) =
      ((f (at2 h w g (i.val - 1) j.val) : Nat) : Int) := fun f => by
    unfold padChan
    rw [getOpt_eq_at2 g _ _ (i.val - 1) j.val (by omega) (by omega) (by omega) (by omega)]
  have p3 : ∀ f : RGBTRIPLE → Nat, padChan h w g f ((i.val : Int) + (-1)) ((j.val : Int) + 1) = 0 := fun f => by
    unfold padChan
    rw [getOpt_oob g _ _ (by omega)]
  have p4 : ∀ f : RGBTRIPLE → Nat, padChan h w g f ((i.val : Int) + 0) ((j.val : Int) + (-1)) =
      ((f (at2 h w g i.val (j.val - 1)) : Nat) : Int) := fun f => by
    unfold padChan
    rw [getOpt_eq_at2 g _ _ i.val (j.val - 1) (by omega) (by omega) (by omega) (by omega)]
  have p5 : ∀ f : RGBTRIPLE → Nat, padChan h w g f ((i.val : Int) + 0) ((j.val : Int) + 0) =
      ((f (at2 h w g i.val j.val) : Nat) : Int) := fun f => by
    unfold padChan
    rw [getOpt_eq_at2 g _ _ i.val j.val (by omega) (by omega) (by omega) (by omega)]
  have p6 : ∀ f : RGBTRIPLE → Nat, padChan h w g f ((i.val : Int) + 0) ((j.val : Int) + 1) = 0 := fun f => by
    unfold padChan
    rw [getOpt_oob g _ _ (by omega)]
  have p7 : ∀ f : RGBTRIPLE → Nat, padChan h w g f ((i.val : Int) + 1) ((j.val : Int) + (-1)) = 0 := fun f => by
    unfold padChan
    rw [getOpt_oob g _ _ (by omega)]
  have p8 : ∀ f : RGBTRIPLE → Nat, padChan h w g f ((i.val : Int) + 1) ((j.val : Int) + 0) = 0 := fun f => by
    unfold padChan
    rw [getOpt_oob g _ _ (by omega)]
  have p9 : ∀ f : RGBTRIPLE → Nat, padChan h w g f ((i.val : Int) + 1) ((j.val : Int) + 1) = 0 := fun f => by
    unfold padChan
    rw [getOpt_oob g _ _ (by omega)]
  simp only [edgesSpecPixel, gradSum, sobelGx, sobelGy, List.map_cons, List.map_nil,
    List.sum_cons, List.sum_nil, p1, p2, p3, p4, p5, p6, p7, p8, p9, edgeBR,
    RGBTRIPLE.mk.injEq]
  refine ⟨sobelVal_congr (by omega) (by omega), sobelVal_congr (by omega) (by omega),
    sobelVal_congr (by omega) (by omega)⟩

/-! ## Refinement: the code's per-pixel values equal the spec formulas -/

theorem blurPixel_eq (h w : Nat) (g : Image h w) (i : Fin h) (j : Fin w)
    (hh : 2 ≤ h) (hw : 2 ≤ w) :
    blurPixel h w g (i.val : Int) (j.val : Int) =
      some (blurSpecPixel h w g (i.val : Int) (j.val : Int)) := by
  have hiw := i.isLt
  have hjw := j.isLt
  rcases show i.val = 0 ∨ (0 < i.val ∧ i.val < h - 1) ∨ i.val = h - 1 from by omega
    with hi | ⟨hi1, hi2⟩ | hi <;>
    rcases show j.val = 0 ∨ (0 < j.val ∧ j.val < w - 1) ∨ j.val = w - 1 from by omega
      with hj | ⟨hj1, hj2⟩ | hj <;>
    simp only [blurPixel]
  · rw [pixelPass_TL h w g blur4 blur6 blur4 blur6 blur9 blur6 blur4 blur6 blur4
        i j hh hw hi hj, blurSpecPixel_TL h w g i j hh hw hi hj]
  · rw [pixelPass_T h w g blur4 blur6 blur4 blur6 blur9 blur6 blur4 blur6 blur4
        i j hh hw hi hj1 hj2, blurSpecPixel_T h w g i j hh hw hi hj1 hj2]
  · rw [pixelPass_TR h w g blur4 blur6 blur4 blur6 blur9 blur6 blur4 blur6 blur4
        i j hh hw hi hj, blurSpecPixel_TR h w g i j hh hw hi hj]
  · rw [pixelPass_L h w g blur4 blur6 blur4 blur6 blur9 blur6 blur4 blur6 blur4
        i j hh hw hi1 hi2 hj, blurSpecPixel_L h w g i j hh hw hi1 hi2 hj]
  · rw [pixelPass_M h w g blur4 blur6 blur4 blur6 blur9 blur6 blur4 blur6 blur4
        i j hh hw hi1 hi2 hj1 hj2, blurSpecPixel_M h w g i j hh hw hi1 hi2 hj1 hj2]
  · rw [pixelPass_R h w g blur4 blur6 blur4 blur6 blur9 blur6 blur4 blur6 blur4
        i j hh hw hi1 hi2 hj, blurSpecPixel_R h w g i j hh hw hi1 hi2 hj]
  · rw [pixelPass_BL h w g blur4 blur6 blur4 blur6 blur9 blur6 blur4 blur6 blur4
        i j hh hw hi hj, blurSpecPixel_BL h w g i j hh hw hi hj]
  · rw [pixelPass_B h w g blur4 blur6 blur4 blur6 blur9 blur6 blur4 blur6 blur4
        i j hh hw hi hj1 hj2, blurSpecPixel_B h w g i j hh hw hi hj1 hj2]
  · rw [pixelPass_BR h w g blur4 blur6 blur4 blur6 blur9 blur6 blur4 blur6 blur4
        i j hh hw hi hj, blurSpecPixel_BR h w g i j hh hw hi hj]

theorem edgesPixel_eq (h w : Nat) (g : Image h w) (i : Fin h) (j : Fin w)
    (hh : 2 ≤ h) (hw : 2 ≤ w) :
    edgesPixel h w g (i.val : Int) (j.val : Int) =
      some (edgesSpecPixel h w g (i.val : Int) (j.val : Int)) := by
  have hiw := i.isLt
  have hjw := j.isLt
  rcases show i.val = 0 ∨ (0 < i.val ∧ i.val < h - 1) ∨ i.val = h - 1 from by omega
    with hi | ⟨hi1, hi2⟩ | hi <;>
    rcases show j.val = 0 ∨ (0 < j.val ∧ j.val < w - 1) ∨ j.val = w - 1 from by omega
      with hj | ⟨hj1, hj2⟩ | hj <;>
    simp only [edgesPixel]
  · rw [pixelPass_TL h w g edgeTL edgeT edgeTR edgeL edgeM edgeR edgeBL edgeB edgeBR
        i j hh hw hi hj, edgesSpecPixel_TL h w g i j hh hw hi hj]
  · rw [pixelPass_T h w g edgeTL edgeT edgeTR edgeL edgeM edgeR edgeBL edgeB edgeBR
        i j hh hw hi hj1 hj2, edgesSpecPixel_T h w g i j hh hw hi hj1 hj2]
  · rw [pixelPass_TR h w g edgeTL edgeT edgeTR edgeL edgeM edgeR edgeBL edgeB edgeBR
        i j hh hw hi hj, edgesSpecPixel_TR h w g i j hh hw hi hj]
  · rw [pixelPass_L h w g edgeTL edgeT edgeTR edgeL edgeM edgeR edgeBL edgeB edgeBR
        i j hh hw hi1 hi2 hj, edgesSpecPixel_L h w g i j hh hw hi1 hi2 hj]
  · rw [pixelPass_M h w g edgeTL edgeT edgeTR edgeL edgeM edgeR edgeBL edgeB edgeBR
        i j hh hw hi1 hi2 hj1 hj2, edgesSpecPixel_M h w g i j hh hw hi1 hi2 hj1 hj2]
  · rw [pixelPass_R h w g edgeTL edgeT edgeTR edgeL edgeM edgeR edgeBL edgeB edgeBR
        i j hh hw hi1 hi2 hj, edgesSpecPixel_R h w g i j hh hw hi1 hi2 hj]
  · rw [pixelPass_BL h w g edgeTL edgeT edgeTR edgeL edgeM edgeR edgeBL edgeB edgeBR
        i j hh hw hi hj, edgesSpecPixel_BL h w g i j hh hw hi hj]
  · rw [pixelPass_B h w g edgeTL edgeT edgeTR edgeL edgeM edgeR edgeBL edgeB edgeBR
        i j hh hw hi hj1 hj2, edgesSpecPixel_B h w g i j hh hw hi hj1 hj2]
  · rw [pixelPass_BR h w g edgeTL edgeT edgeTR edgeL edgeM edgeR edgeBL edgeB edgeBR
        i j hh hw hi hj, edgesSpecPixel_BR h w g i j hh hw hi hj]

theorem blurOpt_spec (h w : Nat) (g : Image h w) (hh : 2 ≤ h) (hw : 2 ≤ w) :
    blurOpt h w g = some (blurSpec h w g) := by
  have H : ∀ (i : Fin h) (j : Fin w),
      (blurPixel h w g (i.val : Int) (j.val : Int)).isSome := fun i j => by
    rw [blurPixel_eq h w g i j hh hw]
    rfl
  unfold blurOpt
  rw [dif_pos H]
  congr 1
  funext i j
  exact Option.some_injective _
    (by rw [Option.some_get, blurPixel_eq h w g i j hh hw]; rfl)

theorem edgesOpt_spec (h w : Nat) (g : Image h w) (hh : 2 ≤ h) (hw : 2 ≤ w) :
    edgesOpt h w g = some (edgesSpec h w g) := by
  have H : ∀ (i : Fin h) (j : Fin w),
      (edgesPixel h w g (i.val : Int) (j.val : Int)).isSome := fun i j => by
    rw [edgesPixel_eq h w g i j hh hw]
    rfl
  unfold edgesOpt
  rw [dif_pos H]
  congr 1
  funext i j
  exact Option.some_injective _
    (by rw [Option.some_get, edgesPixel_eq h w g i j hh hw]; rfl)

/-! ## `reflect`: the swap loop reverses each row -/

theorem rowSwap_eval (w : Nat) (r : Fin w → RGBTRIPLE) (k : Nat) (hkw : k < w)
    (t : Fin w) :
    rowSwap w r k t =
      if t.val = k then r ⟨w - 1 - k, by omega⟩
      else if t.val = w - 1 - k then r ⟨k, hkw⟩
      else r t := by
  unfold rowSwap
  rw [dif_pos hkw]

theorem rowReflect_foldl (w : Nat) (r : Fin w → RGBTRIPLE) :
    ∀ k, k ≤ w / 2 → ∀ t : Fin w,
      ((List.range k).foldl (rowSwap w) r) t =
        if t.val < k ∨ w - k ≤ t.val then r (revIdx w t) else r t := by
  intro k
  induction k with
  | zero =>
    intro _ t
    have := t.isLt
    rw [List.range_zero, List.foldl_nil, if_neg (by omega)]
  | succ k ih =>
    intro hk t
    have htw := t.isLt
    rw [List.range_succ, List.foldl_append, List.foldl_cons, List.foldl_nil,
      rowSwap_eval w _ k (by omega) t]
    by_cases h1 : t.val = k
    · rw [if_pos h1, ih (by omega) ⟨w - 1 - k, by omega⟩,
        if_neg (show ¬((w - 1 - k : Nat) < k ∨ w - k ≤ w - 1 - k) by omega),
        if_pos (show t.val < k + 1 ∨ w - (k + 1) ≤ t.val by omega)]
      exact congrArg r (Fin.ext (show w - 1 - k = w - 1 - t.val by omega))
    · rw [if_neg h1]
      by_cases h2 : t.val = w - 1 - k
      · rw [if_pos h2, ih (by omega) ⟨k, by omega⟩,
          if_neg (show ¬((k : Nat) < k ∨ w - k ≤ k) by omega),
          if_pos (show t.val < k + 1 ∨ w - (k + 1) ≤ t.val by omega)]
        exact congrArg r (Fin.ext (show k = w - 1 - t.val by omega))
      · rw [if_neg h2, ih (by omega) t]
        have hiff : (t.val < k ∨ w - k ≤ t.val) ↔
            (t.val < k + 1 ∨ w - (k + 1) ≤ t.val) := by omega
        by_cases h3 : t.val < k ∨ w - k ≤ t.val
        · rw [if_pos h3, if_pos (hiff.mp h3)]
        · rw [if_neg h3, if_neg (fun hx => h3 (hiff.mpr hx))]

theorem rowReflect_apply (w : Nat) (r : Fin w → RGBTRIPLE) (t : Fin w) :
    rowReflect w r t = r (revIdx w t) := by
  have htw := t.isLt
  unfold rowReflect
  rw [ite_self, rowReflect_foldl w r (w / 2) (le_refl _) t]
  by_cases hc : t.val < w / 2 ∨ w - w / 2 ≤ t.val
  · rw [if_pos hc]
  · rw [if_neg hc]
    exact congrArg r (Fin.ext (show t.val = w - 1 - t.val by omega))

theorem reflect_apply (h w : Nat) (g : Image h w) (i : Fin h) (t : Fin w) :
    reflect h w g i t = g i (revIdx w t) := rowReflect_apply w (g i) t

/-! ## Range preservation -/

theorem blur4_bounded {p1 p2 p3 p4 : RGBTRIPLE} (h1 : boundedPix p1)
    (h2 : boundedPix p2) (h3 : boundedPix p3) (h4 : boundedPix p4) :
    boundedPix (blur4 p1 p2 p3 p4) := by
  obtain ⟨b1, g1, r1⟩ := h1
  obtain ⟨b2, g2, r2⟩ := h2
  obtain ⟨b3, g3, r3⟩ := h3
  obtain ⟨b4, g4, r4⟩ := h4
  exact ⟨roundDiv_le (by omega), roundDiv_le (by omega), roundDiv_le (by omega)⟩

theorem blur6_bounded {p1 p2 p3 p4 p5 p6 : RGBTRIPLE} (h1 : boundedPix p1)
    (h2 : boundedPix p2) (h3 : boundedPix p3) (h4 : boundedPix p4)
    (h5 : boundedPix p5) (h6 : boundedPix p6) :
    boundedPix (blur6 p1 p2 p3 p4 p5 p6) := by
  obtain ⟨b1, g1, r1⟩ := h1
  obtain ⟨b2, g2, r2⟩ := h2
  obtain ⟨b3, g3, r3⟩ := h3
  obtain ⟨b4, g4, r4⟩ := h4
  obtain ⟨b5, g5, r5⟩ := h5
  obtain ⟨b6, g6, r6⟩ := h6
  exact ⟨roundDiv_le (by omega), roundDiv_le (by omega), roundDiv_le (by omega)⟩

theorem blur9_bounded {p1 p2 p3 p4 p5 p6 p7 p8 p9 : RGBTRIPLE}
    (h1 : boundedPix p1) (h2 : boundedPix p2) (h3 : boundedPix p3)
    (h4 : boundedPix p4) (h5 : boundedPix p5) (h6 : boundedPix p6)
    (h7 : boundedPix p7) (h8 : boundedPix p8) (h9 : boundedPix p9) :
    boundedPix (blur9 p1 p2 p3 p4 p5 p6 p7 p8 p9) := by
  obtain ⟨b1, g1, r1⟩ := h1
  obtain ⟨b2, g2, r2⟩ := h2
  obtain ⟨b3, g3, r3⟩ := h3
  obtain ⟨b4, g4, r4⟩ := h4
  obtain ⟨b5, g5, r5⟩ := h5
  obtain ⟨b6, g6, r6⟩ := h6
  obtain ⟨b7, g7, r7⟩ := h7
  obtain ⟨b8, g8, r8⟩ := h8
  obtain ⟨b9, g9, r9⟩ := h9
  exact ⟨roundDiv_le (by omega), roundDiv_le (by omega), roundDiv_le (by omega)⟩

theorem blurPixel_bounded {h w : Nat} {g : Image h w} {i j : Int} {v : RGBTRIPLE}
    (hb : boundedImg h w g) (hv : blurPixel h w g i j = some v) :
    boundedPix v := by
  simp only [blurPixel, pixelPass] at hv
  rcases seqStep_eq_some hv with hv | hv <;> [skip; rcases seqStep_eq_some hv with hv | hv] <;>
    [skip; skip; rcases seqStep_eq_some hv with hv | hv] <;>
    [skip; skip; skip; rcases seqStep_eq_some hv with hv | hv] <;>
    [skip; skip; skip; skip; rcases seqStep_eq_some hv with hv | hv] <;>
    [skip; skip; skip; skip; skip; rcases seqStep_eq_some hv with hv | hv] <;>
    [skip; skip; skip; skip; skip; skip; rcases seqStep_eq_some hv with hv | hv] <;>
    [skip; skip; skip; skip; skip; skip; skip;
      rcases seqStep_eq_some hv with hv | hv] <;>
    [skip; skip; skip; skip; skip; skip; skip; skip;
      rcases seqStep_eq_some hv with hv | hv]
  all_goals first
  | (obtain ⟨p1, p2, p3, p4, h1, h2, h3, h4, rfl⟩ := reads4_eq_some hv
     obtain ⟨a1, b1, rfl⟩ := getOpt_some h1
     obtain ⟨a2, b2, rfl⟩ := getOpt_some h2
     obtain ⟨a3, b3, rfl⟩ := getOpt_some h3
     obtain ⟨a4, b4, rfl⟩ := getOpt_some h4
     exact blur4_bounded (hb a1 b1) (hb a2 b2) (hb a3 b3) (hb a4 b4))
  | (obtain ⟨p1, p2, p3, p4, p5, p6, h1, h2, h3, h4, h5, h6, rfl⟩ :=
       reads6_eq_some hv
     obtain ⟨a1, b1, rfl⟩ := getOpt_some h1
     obtain ⟨a2, b2, rfl⟩ := getOpt_some h2
     obtain ⟨a3, b3, rfl⟩ := getOpt_some h3
     obtain ⟨a4, b4, rfl⟩ := getOpt_some h4
     obtain ⟨a5, b5, rfl⟩ := getOpt_some h5
     obtain ⟨a6, b6, rfl⟩ := getOpt_some h6
     exact blur6_bounded (hb a1 b1) (hb a2 b2) (hb a3 b3) (hb a4 b4) (hb a5 b5)
       (hb a6 b6))
  | (obtain ⟨p1, p2, p3, p4, p5, p6, p7, p8, p9, h1, h2, h3, h4, h5, h6, h7, h8,
       h9, rfl⟩ := reads9_eq_some hv
     obtain ⟨a1, b1, rfl⟩ := getOpt_some h1
     obtain ⟨a2, b2, rfl⟩ := getOpt_some h2
     obtain ⟨a3, b3, rfl⟩ := getOpt_some h3
     obtain ⟨a4, b4, rfl⟩ := getOpt_some h4
     obtain ⟨a5, b5, rfl⟩ := getOpt_some h5
     obtain ⟨a6, b6, rfl⟩ := getOpt_some h6
     obtain ⟨a7, b7, rfl⟩ := getOpt_some h7
     obtain ⟨a8, b8, rfl⟩ := getOpt_some h8
     obtain ⟨a9, b9, rfl⟩ := getOpt_some h9
     exact blur9_bounded (hb a1 b1) (hb a2 b2) (hb a3 b3) (hb a4 b4) (hb a5 b5)
       (hb a6 b6) (hb a7 b7) (hb a8 b8) (hb a9 b9))
  | (injection hv with hv
     exact hv ▸ (by decide : boundedPix zeroPix))

theorem edgeTL_bounded (p1 p2 p3 p4 : RGBTRIPLE) :
    boundedPix (edgeTL p1 p2 p3 p4) := by
  simp only [edgeTL]
  exact ⟨sobelVal_le _ _, sobelVal_le _ _, sobelVal_le _ _⟩

theorem edgeTR_bounded (p1 p2 p3 p4 : RGBTRIPLE) :
    boundedPix (edgeTR p1 p2 p3 p4) := by
  simp only [edgeTR]
  exact ⟨sobelVal_le _ _, sobelVal_le _ _, sobelVal_le _ _⟩

theorem edgeBL_bounded (p1 p2 p3 p4 : RGBTRIPLE) :
    boundedPix (edgeBL p1 p2 p3 p4) := by
  simp only [edgeBL]
  exact ⟨sobelVal_le _ _, sobelVal_le _ _, sobelVal_le _ _⟩

theorem edgeBR_bounded (p1 p2 p3 p4 : RGBTRIPLE) :
    boundedPix (edgeBR p1 p2 p3 p4) := by
  simp only [edgeBR]
  exact ⟨sobelVal_le _ _, sobelVal_le _ _, sobelVal_le _ _⟩

theorem edgeT_bounded (p1 p2 p3 p4 p5 p6 : RGBTRIPLE) :
    boundedPix (edgeT p1 p2 p3 p4 p5 p6) := by
  simp only [edgeT]
  exact ⟨sobelVal_le _ _, sobelVal_le _ _, sobelVal_le _ _⟩

theorem edgeL_bounded (p1 p2 p3 p4 p5 p6 : RGBTRIPLE) :
    boundedPix (edgeL p1 p2 p3 p4 p5 p6) := by
  simp only [edgeL]
  exact ⟨sobelVal_le _ _, sobelVal_le _ _, sobelVal_le _ _⟩

theorem edgeR_bounded (p1 p2 p3 p4 p5 p6 : RGBTRIPLE) :
    boundedPix (edgeR p1 p2 p3 p4 p5 p6) := by
  simp only [edgeR]
  exact ⟨sobelVal_le _ _, sobelVal_le _ _, sobelVal_le _ _⟩

theorem edgeB_bounded (p1 p2 p3 p4 p5 p6 : RGBTRIPLE) :
    boundedPix (edgeB p1 p2 p3 p4 p5 p6) := by
  simp only [edgeB]
  exact ⟨sobelVal_le _ _, sobelVal_le _ _, sobelVal_le _ _⟩

theorem edgeM_bounded (p1 p2 p3 p4 p5 p6 p7 p8 p9 : RGBTRIPLE) :
    boundedPix (edgeM p1 p2 p3 p4 p5 p6 p7 p8 p9) := by
  simp only [edgeM]
  exact ⟨sobelVal_le _ _, sobelVal_le _ _, sobelVal_le _ _⟩

theorem edgesPixel_bounded {h w : Nat} {g : Image h w} {i j : Int}
    {v : RGBTRIPLE} (hv : edgesPixel h w g i j = some v) : boundedPix v := by
  simp only [edgesPixel, pixelPass] at hv
  rcases seqStep_eq_some hv with hv | hv <;> [skip; rcases seqStep_eq_some hv with hv | hv] <;>
    [skip; skip; rcases seqStep_eq_some hv with hv | hv] <;>
    [skip; skip; skip; rcases seqStep_eq_some hv with hv | hv] <;>
    [skip; skip; skip; skip; rcases seqStep_eq_some hv with hv | hv] <;>
    [skip; skip; skip; skip; skip; rcases seqStep_eq_some hv with hv | hv] <;>
    [skip; skip; skip; skip; skip; skip; rcases seqStep_eq_some hv with hv | hv] <;>
    [skip; skip; skip; skip; skip; skip; skip;
      rcases seqStep_eq_some hv with hv | hv] <;>
    [skip; skip; skip; skip; skip; skip; skip; skip;
      rcases seqStep_eq_some hv with hv | hv]
  · obtain ⟨p1, p2, p3, p4, h1, h2, h3, h4, rfl⟩ := reads4_eq_some hv
    exact edgeBR_bounded p1 p2 p3 p4
  · obtain ⟨p1, p2, p3, p4, p5, p6, h1, h2, h3, h4, h5, h6, rfl⟩ :=
      reads6_eq_some hv
    exact edgeB_bounded p1 p2 p3 p4 p5 p6
  · obtain ⟨p1, p2, p3, p4, h1, h2, h3, h4, rfl⟩ := reads4_eq_some hv
    exact edgeBL_bounded p1 p2 p3 p4
  · obtain ⟨p1, p2, p3, p4, p5, p6, h1, h2, h3, h4, h5, h6, rfl⟩ :=
      reads6_eq_some hv
    exact edgeR_bounded p1 p2 p3 p4 p5 p6
  · obtain ⟨p1, p2, p3, p4, p5, p6, p7, p8, p9, h1, h2, h3, h4, h5, h6, h7, h8,
      h9, rfl⟩ := reads9_eq_some hv
    exact edgeM_bounded p1 p2 p3 p4 p5 p6 p7 p8 p9
  · obtain ⟨p1, p2, p3, p4, p5, p6, h1, h2, h3, h4, h5, h6, rfl⟩ :=
      reads6_eq_some hv
    exact edgeL_bounded p1 p2 p3 p4 p5 p6
  · obtain ⟨p1, p2, p3, p4, h1, h2, h3, h4, rfl⟩ := reads4_eq_some hv
    exact edgeTR_bounded p1 p2 p3 p4
  · obtain ⟨p1, p2, p3, p4, p5, p6, h1, h2, h3, h4, h5, h6, rfl⟩ :=
      reads6_eq_some hv
    exact edgeT_bounded p1 p2 p3 p4 p5 p6
  · obtain ⟨p1, p2, p3, p4, h1, h2, h3, h4, rfl⟩ := reads4_eq_some hv
    exact edgeTL_bounded p1 p2 p3 p4
  · injection hv with hv
    exact hv ▸ (by decide : boundedPix zeroPix)

theorem blurOpt_bounded {h w : Nat} {g gb : Image h w} (hb : boundedImg h w g)
    (hg : blurOpt h w g = some gb) : boundedImg h w gb := by
  unfold blurOpt at hg
  split at hg
  case isTrue H =>
    injection hg with hg
    subst hg
    intro i j
    exact blurPixel_bounded hb (Option.some_get (H i j)).symm
  case isFalse => exact absurd hg (by simp)

theorem edgesOpt_bounded {h w : Nat} {g ge : Image h w}
    (hg : edgesOpt h w g = some ge) : boundedImg h w ge := by
  unfold edgesOpt at hg
  split at hg
  case isTrue H =>
    injection hg with hg
    subst hg
    intro i j
    exact edgesPixel_bounded (Option.some_get (H i j)).symm
  case isFalse => exact absurd hg (by simp)

theorem grayscale_bounded {h w : Nat} {g : Image h w} (hb : boundedImg h w g) :
    boundedImg h w (grayscale h w g) := by
  intro i j
  obtain ⟨b1, g1, r1⟩ := hb i j
  exact ⟨roundDiv_le (by omega), roundDiv_le (by omega), roundDiv_le (by omega)⟩

theorem reflect_bounded {h w : Nat} {g : Image h w} (hb : boundedImg h w g) :
    boundedImg h w (reflect h w g) := by
  intro i j
  rw [reflect_apply]
  exact hb i (revIdx w j)

/-! ## Exact rounding of the grayscale quotient -/

theorem round_natCast_div_three (s : Nat) :
    round ((s : ℚ) / 3) = ((roundDiv s 3 : Nat) : ℤ) := by
  have hq : ((s : ℚ)) / 3 + 1 / 2 = ((2 * s + 3 : Nat) : ℚ) / ((6 : Nat) : ℚ) := by
    push_cast
    ring
  rw [round_eq, hq, Int.floor_eq_iff]
  constructor
  · rw [le_div_iff₀ (show (0 : ℚ) < ((6 : Nat) : ℚ) by norm_num)]
    exact_mod_cast (show roundDiv s 3 * 6 ≤ 2 * s + 3 by unfold roundDiv; omega)
  · rw [div_lt_iff₀ (show (0 : ℚ) < ((6 : Nat) : ℚ) by norm_num)]
    exact_mod_cast (show 2 * s + 3 < (roundDiv s 3 + 1) * 6 by unfold roundDiv; omega)

/-! ## `edges` on the all-black image -/

theorem padChan_zero {h w : Nat} {g : Image h w}
    (hg : ∀ (a : Fin h) (b : Fin w), g a b = zeroPix) {f : RGBTRIPLE → Nat}
    (hf : f zeroPix = 0) (i j : Int) : padChan h w g f i j = 0 := by
  unfold padChan
  split
  next p heq =>
    obtain ⟨a, b, rfl⟩ := getOpt_some heq
    rw [hg a b, hf]
    rfl
  next => rfl

theorem gradSum_zero {h w : Nat} {g : Image h w}
    (hg : ∀ (a : Fin h) (b : Fin w), g a b = zeroPix) {f : RGBTRIPLE → Nat}
    (hf : f zeroPix = 0) :
    ∀ (ker : List (Int × Int × Int)) (i j : Int), gradSum ker h w g f i j = 0 := by
  intro ker
  induction ker with
  | nil => intro i j; rfl
  | cons t ts ih =>
    intro i j
    rw [gradSum, List.map_cons, List.sum_cons, padChan_zero hg hf, mul_zero,
      zero_add]
    exact ih i j

theorem edgesSpec_black (h w : Nat) (g : Image h w)
    (hg : ∀ (a : Fin h) (b : Fin w), g a b = zeroPix) :
    edgesSpec h w g = imgBlack h w := by
  funext i j
  unfold edgesSpec edgesSpecPixel imgBlack
  rw [gradSum_zero hg rfl sobelGx, gradSum_zero hg rfl sobelGy,
    gradSum_zero hg rfl sobelGx, gradSum_zero hg rfl sobelGy,
    gradSum_zero hg rfl sobelGx, gradSum_zero hg rfl sobelGy]
  rfl

/-! ## The claims -/

/-- C1, counterexample: `edges` does not implement the spec's four-stage
pipeline (grayscale, luminance, scalar Sobel, threshold + BoxBlur).  On the
2×2 test image the code's per-channel Sobel yields pixel values such as 247
and 175 where the pipeline yields an all-white image. -/
theorem edges_not_pipeline_at_img2x2 :
    edgesOpt 2 2 img2x2 ≠ some (edgesPipelineSpec 2 2 img2x2) := by decide

/-- C1, amended: for every grid with `h, w ≥ 2`, `edges` computes, per
channel independently, the Sobel gradient magnitude
`round(sqrt(Gx² + Gy²))` with zero-padding at the boundary, clamped at 255,
from the original pre-transform pixel values — a single pass, with no
grayscale, no luminance, no thresholding and no blur stage. -/
theorem edges_eq_clamped_sobel (h w : Nat) (g : Image h w) (hh : 2 ≤ h)
    (hw : 2 ≤ w) : edgesOpt h w g = some (edgesSpec h w g) :=
  edgesOpt_spec h w g hh hw

theorem edges_eq_clamped_sobel_witness :
    (2 ≤ 2 ∧ 2 ≤ 2) ∧ edgesOpt 2 2 img2x2 = some (edgesSpec 2 2 img2x2) :=
  ⟨⟨by decide, by decide⟩, edges_eq_clamped_sobel 2 2 img2x2 (by decide) (by decide)⟩

/-- C2, counterexample: on a 1×2 grid `blur` is not the in-bounds mean —
the border-case code reads row 1 of a 1-row image, so the embedding yields
`none` rather than the spec's averaged grid. -/
theorem blur_undefined_on_1x2 :
    blurOpt 1 2 img1x2 ≠ some (blurSpec 1 2 img1x2) := by decide

/-- C2, amended: for every grid with `h, w ≥ 2`, `blur` produces the grid
whose pixel `(i,j)` has each channel equal to the rounded mean of that
channel over exactly the in-bounds cells of the 3×3 neighbourhood centred at
`(i,j)` (out-of-bounds neighbours excluded from sum and divisor: 9 interior,
6 edge, 4 corner), computed entirely from the original pre-blur values. -/
theorem blur_eq_inbounds_mean (h w : Nat) (g : Image h w) (hh : 2 ≤ h)
    (hw : 2 ≤ w) : blurOpt h w g = some (blurSpec h w g) :=
  blurOpt_spec h w g hh hw

theorem blur_eq_inbounds_mean_witness :
    (2 ≤ 2 ∧ 2 ≤ 2) ∧ blurOpt 2 2 img2x2 = some (blurSpec 2 2 img2x2) :=
  ⟨⟨by decide, by decide⟩, blur_eq_inbounds_mean 2 2 img2x2 (by decide) (by decide)⟩

/-- C3: `grayscale` replaces, for every pixel, all three channels with the
single value `round((R + G + B) / 3)` (exact rational rounding, halves up —
the double-precision computation of the C code is exact for these inputs);
in particular the 2×2 test image yields channel values 20, 50, 80, 110. -/
theorem grayscale_averages_channels :
    (∀ (h w : Nat) (g : Image h w) (i : Fin h) (j : Fin w),
      (grayscale h w g i j).rgbtBlue = (grayscale h w g i j).rgbtGreen ∧
      (grayscale h w g i j).rgbtGreen = (grayscale h w g i j).rgbtRed ∧
      ((grayscale h w g i j).rgbtBlue : ℤ) =
        round ((((g i j).rgbtRed : ℚ) + ((g i j).rgbtGreen : ℚ) +
          ((g i j).rgbtBlue : ℚ)) / 3)) ∧
    grayscale 2 2 img2x2 = img2x2gray := by
  constructor
  · intro h w g i j
    refine ⟨rfl, rfl, ?_⟩
    have hs := round_natCast_div_three
      ((g i j).rgbtRed + (g i j).rgbtGreen + (g i j).rgbtBlue)
    rw [show (((g i j).rgbtRed : ℚ) + ((g i j).rgbtGreen : ℚ) +
        ((g i j).rgbtBlue : ℚ)) =
        ((((g i j).rgbtRed + (g i j).rgbtGreen + (g i j).rgbtBlue : Nat)) : ℚ)
      from by push_cast; ring, hs]
    rfl
  · decide

/-- C4: the spec says a 1×1 grid blurs to itself (neighbour count 1), but
the code's corner branch unconditionally reads `image[0][1]`, `image[1][0]`
and `image[1][1]`, which do not exist in a 1×1 grid: the embedding returns
`none` (undefined behaviour), not the original grid. -/
theorem blur_1x1_reads_oob : blurOpt 1 1 img1x1 = none := by decide

/-- C5, counterexample: a uniform non-black 2×2 image does not map to
all-black under `edges`: the zero-padded border kernels see the padding as a
hard edge (corner value `round(sqrt(30² + 30²)) = 42` for colour 10). -/
theorem edges_uniform_not_black :
    edgesOpt 2 2 imgUnif ≠ some (imgBlack 2 2) := by decide

/-- C5, amended: for every *all-black* input grid with `h, w ≥ 2`, `edges`
produces the all-black grid (every channel of every output pixel is 0);
uniform non-black inputs are not mapped to black. -/
theorem edges_allblack_to_allblack (h w : Nat) (g : Image h w) (hh : 2 ≤ h)
    (hw : 2 ≤ w) (hg : ∀ (a : Fin h) (b : Fin w), g a b = zeroPix) :
    edgesOpt h w g = some (imgBlack h w) := by
  rw [edgesOpt_spec h w g hh hw, edgesSpec_black h w g hg]

theorem edges_allblack_to_allblack_witness :
    (2 ≤ 2 ∧ 2 ≤ 2 ∧ ∀ (a b : Fin 2), imgBlack 2 2 a b = zeroPix) ∧
    edgesOpt 2 2 (imgBlack 2 2) = some (imgBlack 2 2) :=
  ⟨⟨by decide, by decide, fun _ _ => rfl⟩,
   edges_allblack_to_allblack 2 2 (imgBlack 2 2) (by decide) (by decide)
     (fun _ _ => rfl)⟩

/-- C6: `reflect` is an involution — applying it twice returns the original
grid exactly, for every height and width (odd or even). -/
theorem reflect_involution (h w : Nat) (g : Image h w) :
    reflect h w (reflect h w g) = g := by
  funext i t
  have htw := t.isLt
  rw [reflect_apply, reflect_apply]
  exact congrArg (g i)
    (Fin.ext (show w - 1 - (w - 1 - t.val) = t.val by omega))

/-- C7: on an input whose channels lie in [0,255], each transform's output
again has every channel in [0,255] (for `blur`/`edges`, whenever they
produce a grid at all): `grayscale` and `blur` by the rounding/averaging
arithmetic, `reflect` trivially, `edges` by the explicit clamp at 255. -/
theorem transforms_preserve_range (h w : Nat) (g gb ge : Image h w)
    (hb : boundedImg h w g) (hgb : blurOpt h w g = some gb)
    (hge : edgesOpt h w g = some ge) :
    boundedImg h w (grayscale h w g) ∧ boundedImg h w (reflect h w g) ∧
    boundedImg h w gb ∧ boundedImg h w ge :=
  ⟨grayscale_bounded hb, reflect_bounded hb, blurOpt_bounded hb hgb,
   edgesOpt_bounded hge⟩

theorem transforms_preserve_range_witness :
    (boundedImg 2 2 img2x2 ∧ blurOpt 2 2 img2x2 = some img2x2blur ∧
     edgesOpt 2 2 img2x2 = some img2x2edges) ∧
    boundedImg 2 2 (grayscale 2 2 img2x2) ∧ boundedImg 2 2 (reflect 2 2 img2x2) ∧
    boundedImg 2 2 img2x2blur ∧ boundedImg 2 2 img2x2edges := by
  have hgb : blurOpt 2 2 img2x2 = some img2x2blur := by
    rw [blurOpt_spec 2 2 img2x2 (by omega) (by omega)]
    exact congrArg some (by funext i j; fin_cases i <;> fin_cases j <;> decide)
  have hge : edgesOpt 2 2 img2x2 = some img2x2edges := by
    rw [edgesOpt_spec 2 2 img2x2 (by omega) (by omega)]
    exact congrArg some (by funext i j; fin_cases i <;> fin_cases j <;> decide)
  exact ⟨⟨by decide, hgb, hge⟩,
    transforms_preserve_range 2 2 img2x2 img2x2blur img2x2edges (by decide)
      hgb hge⟩

/-- C8, counterexample: argument validation is keyed on the *second*
character `argv[1][1]`, not on single-character flags: the bare flag `b` is
rejected (its second character is the NUL terminator) while the non-flag
`xb` is accepted. -/
theorem validate_args_uses_second_char_cex :
    validate_args [['p'], ['b'], ['i'], ['o']] = some 1 ∧
    validate_args [['p'], ['x', 'b'], ['i'], ['o']] = some 0 := by decide

/-- C8, amended: with exactly four arguments and a nonempty flag argument,
`validate_args` accepts (returns 0) exactly when the character at index 1 of
the flag argument — its second character, or the NUL terminator if it has
only one — is one of `b`, `e`, `g`, `r`; otherwise it reports the
argument-error code 1. -/
theorem validate_args_second_char (argv : List (List Char))
    (h4 : argv.length = 4) (fa : List Char) (hfa : argv[1]? = some fa)
    (c : Char) (hc : cstrCharAt fa 1 = some c) :
    validate_args argv =
      some (if c = 'b' ∨ c = 'e' ∨ c = 'g' ∨ c = 'r' then 0 else 1) := by
  unfold validate_args
  rw [if_neg (by omega)]
  simp only [hfa, hc]
  by_cases hch : c = 'b' ∨ c = 'e' ∨ c = 'g' ∨ c = 'r'
  · rw [if_neg (show ¬(c ≠ 'b' ∧ c ≠ 'e' ∧ c ≠ 'g' ∧ c ≠ 'r') by tauto),
      if_pos hch]
  · rw [if_pos (show c ≠ 'b' ∧ c ≠ 'e' ∧ c ≠ 'g' ∧ c ≠ 'r' by tauto),
      if_neg hch]

theorem validate_args_second_char_witness :
    ([['p'], ['-', 'b'], ['i'], ['o']].length = 4 ∧
     [['p'], ['-', 'b'], ['i'], ['o']][1]? = some ['-', 'b'] ∧
     cstrCharAt ['-', 'b'] 1 = some 'b') ∧
    validate_args [['p'], ['-', 'b'], ['i'], ['o']] =
      some (if 'b' = 'b' ∨ 'b' = 'e' ∨ 'b' = 'g' ∨ 'b' = 'r' then 0 else 1) :=
  ⟨⟨by decide, by decide, by decide⟩,
   validate_args_second_char [['p'], ['-', 'b'], ['i'], ['o']] (by decide)
     ['-', 'b'] (by decide) 'b' (by decide)⟩

/-- C9: for every grid with `h, w ≥ 2`, every neighbour index computed by
the border-case branches of `blur` and `edges` is in bounds: the
`Option`-returning embeddings never hit an out-of-bounds access. -/
theorem blur_edges_safe (h w : Nat) (g : Image h w) (hh : 2 ≤ h)
    (hw : 2 ≤ w) : (blurOpt h w g).isSome ∧ (edgesOpt h w g).isSome := by
  rw [blurOpt_spec h w g hh hw, edgesOpt_spec h w g hh hw]
  exact ⟨rfl, rfl⟩

theorem blur_edges_safe_witness :
    (2 ≤ 2 ∧ 2 ≤ 2) ∧
    (blurOpt 2 2 img2x2).isSome ∧ (edgesOpt 2 2 img2x2).isSome :=
  ⟨⟨by decide, by decide⟩, blur_edges_safe 2 2 img2x2 (by decide) (by decide)⟩

/-- C10: `reflect` allocates a temporary buffer; modelling the `calloc`
outcome as an oracle, allocation failure terminates the process with exit
status 1 before any pixel is modified (the grid is left untouched), and on
success the transform completes normally. -/
theorem reflect_alloc_failure_behaviour (h w : Nat) (g : Image h w) :
    reflectProc h w false g = Except.error 1 ∧
    reflectProc h w true g = Except.ok (reflect h w g) := ⟨rfl, rfl⟩
